import Mathlib

/-!
# Verification of the donation-matching backend (server.js)

A shallow embedding of the request handlers of the blood/organ/money
donation server. Collections are lists of records, the document-store
id generator is a counter, and clock readings (JS `Date.now()` /
`new Date()`) are integer millisecond timestamps carried in the state.
JSON body fields are modelled by their JS truthiness and numeric
conversion behaviour: a numeric field is absent/falsy, a truthy value
that converts to NaN, or a truthy value converting to an integer; a
date field is absent/falsy, an unparsable date, or a timestamp.
-/

namespace Blood

/-- `verificationStatus` enum of every donor/receiver schema:
`['pending', 'approved', 'rejected']`, default `'pending'`. -/
inductive VStatus where
  | pending
  | approved
  | rejected
deriving DecidableEq, Repr

/-- A numeric JSON body field as the handler observes it: `absent` is a
falsy value (`undefined`, missing, `0`, `''`), `nan` a truthy value on
which `Number(...)` yields NaN, `val n` a truthy value converting to the
number `n`. -/
inductive NumIn where
  | absent
  | nan
  | val (n : Int)
deriving DecidableEq, Repr

/-- JS truthiness of a numeric body field. -/
def NumIn.truthy : NumIn → Bool
  | .absent => false
  | .nan => true
  | .val _ => true

/-- A date JSON body field: `absent` is falsy, `invalid` a truthy value
for which `new Date(x).getTime()` is NaN, `at t` a value parsing to the
millisecond timestamp `t`. -/
inductive DateIn where
  | absent
  | invalid
  | at (t : Int)
deriving DecidableEq, Repr

/-- The regex test `/^\d{10}$/.test(phone)`: exactly ten characters,
all decimal digits (stated over the character list of the string). -/
def validPhone (s : String) : Bool :=
  s.data.length == 10 && s.data.all (fun c => c.isDigit)

/-- Donation-summary entries pushed onto `user.donations` (the schema
type is Mixed; the two shapes pushed by the organ-donor and money-donor
handlers). -/
inductive DonationEntry where
  | organ (donorId : Nat) (name phone organType conditionStatus : String)
      (timestamp : Int) (status : String)
  | money (donorId : Nat) (name : String) (amount : NumIn)
      (paymentMethod : String) (timestamp : Int) (status : String)
deriving DecidableEq, Repr

/-- The `status` field of a donation-summary entry. -/
def DonationEntry.status : DonationEntry → String
  | .organ _ _ _ _ _ _ s => s
  | .money _ _ _ _ _ s => s

/-- `userSchema`. -/
structure User where
  id : Nat
  name : String
  phone : String
  password : String
  profilePhoto : String
  createdAt : Int
  donations : List DonationEntry
deriving DecidableEq, Repr

/-- `bloodDonorSchema`. -/
structure BloodDonor where
  id : Nat
  name : String
  phone : String
  age : Int
  weight : Int
  bloodGroup : String
  hasDonatedBefore : Bool
  lastDonationDate : Option Int
  latitude : Option Int
  longitude : Option Int
  verificationFile : Option String
  isVerified : Bool
  verificationStatus : VStatus
  adminNotes : String
  submittedAt : Int
  verifiedAt : Option Int
deriving DecidableEq, Repr

/-- `bloodReceiverSchema`. -/
structure BloodReceiver where
  id : Nat
  name : String
  phone : String
  location : String
  bloodNeed : String
  latitude : Option Int
  longitude : Option Int
  proofFile : Option String
  isVerified : Bool
  verificationStatus : VStatus
  adminNotes : String
  submittedAt : Int
  verifiedAt : Option Int
  verificationFile : Option String
deriving DecidableEq, Repr

/-- `organDonorSchema`. -/
structure OrganDonor where
  id : Nat
  name : String
  phone : String
  weight : Int
  organType : String
  conditionStatus : String
  hasDonatedBefore : Bool
  lastDonationDate : Option Int
  latitude : Option Int
  longitude : Option Int
  verificationFile : Option String
  isVerified : Bool
  verificationStatus : VStatus
  adminNotes : String
  submittedAt : Int
  verifiedAt : Option Int
deriving DecidableEq, Repr

/-- `organReceiverSchema`. -/
structure OrganReceiver where
  id : Nat
  name : String
  phone : String
  location : String
  organNeed : String
  medicalCondition : String
  latitude : Option Int
  longitude : Option Int
  proofFile : Option String
  isVerified : Bool
  verificationStatus : VStatus
  adminNotes : String
  submittedAt : Int
  verifiedAt : Option Int
  verificationFile : Option String
deriving DecidableEq, Repr

/-- `moneyDonorSchema`. -/
structure MoneyDonor where
  id : Nat
  donorName : String
  amount : NumIn
  paymentMethod : String
  verificationFile : Option String
  isVerified : Bool
  verificationStatus : VStatus
  adminNotes : String
  submittedAt : Int
  verifiedAt : Option Int
  timestamp : Int
deriving DecidableEq, Repr

/-- `moneyReceiverSchema`. -/
structure MoneyReceiver where
  id : Nat
  name : String
  age : NumIn
  phone : String
  moneyAmount : NumIn
  moneyNeed : String
  proofFile : Option String
  verificationFile : Option String
  isVerified : Bool
  verificationStatus : VStatus
  adminNotes : String
  submittedAt : Int
  verifiedAt : Option Int
deriving DecidableEq, Repr

/-- The document store plus the service clock: the seven collections,
the id generator, and the current time in milliseconds. -/
structure DB where
  users : List User
  bloodDonors : List BloodDonor
  bloodReceivers : List BloodReceiver
  organDonors : List OrganDonor
  organReceivers : List OrganReceiver
  moneyDonors : List MoneyDonor
  moneyReceivers : List MoneyReceiver
  nextId : Nat
  now : Int
deriving DecidableEq, Repr

/-- An empty store at time 0. -/
def initDB : DB :=
  { users := [], bloodDonors := [], bloodReceivers := [], organDonors := []
    organReceivers := [], moneyDonors := [], moneyReceivers := []
    nextId := 0, now := 0 }

/-- Response of a submission (POST) handler: `201` with the created id
and the literal `status` string of the response body, or `400` with an
error message. -/
inductive PostRes where
  | created (recId : Nat) (status : String)
  | badRequest (msg : String)
deriving DecidableEq, Repr

/-- Whether a submission response is the 201 success. -/
def PostRes.isCreated : PostRes → Bool
  | .created _ _ => true
  | .badRequest _ => false

/-! ## Document-store primitives -/

/-- Strict descending-sort order on an optional timestamp: a missing
value sorts below every present one (Mongo missing-field semantics). -/
def optLt : Option Int → Option Int → Bool
  | none, some _ => true
  | none, none => false
  | some _, none => false
  | some a, some b => decide (a < b)

/-- Lexicographic order on the sort key of
`.sort(\x7b verifiedAt: -1, submittedAt: -1 \x7d)`: the first component
is the optional `verifiedAt`, the second `submittedAt`; the maximal
element under this order is the record `findOne` returns. -/
def sortKeyLe (a b : Option Int × Int) : Bool :=
  optLt a.1 b.1 || (a.1 == b.1 && decide (a.2 ≤ b.2))

/-- `findOne(query).sort(...)`: the first element of the list after a
descending sort, i.e. a maximal element under `le` (ties broken towards
the front of the collection). -/
def pickMax (le : α → α → Bool) : List α → Option α
  | [] => none
  | x :: xs =>
    match pickMax le xs with
    | none => some x
    | some y => if le y x then some x else some y

/-- `Model.findById(id)`. -/
def findById (getId : α → Nat) (recId : Nat) (l : List α) : Option α :=
  l.find? (fun x => getId x == recId)

/-- `Model.findByIdAndUpdate(id, f, \x7b new: true \x7d)`: applies `f` to
the record with the given id and returns the new record together with
the updated collection, or `none` and the unchanged collection. -/
def findByIdAndUpdate (getId : α → Nat) (recId : Nat) (f : α → α) :
    List α → Option α × List α
  | [] => (none, [])
  | x :: xs =>
    if getId x == recId then (some (f x), f x :: xs)
    else
      let r := findByIdAndUpdate getId recId f xs
      (r.1, x :: r.2)

/-- `User.findById(userId)` followed by `user.donations.push(entry);
user.save()`: appends `entry` to the donation log of the user with the
given id, if any. -/
def pushDonation (userId : Nat) (entry : DonationEntry) : List User → List User
  | [] => []
  | u :: us =>
    if u.id == userId then { u with donations := u.donations ++ [entry] } :: us
    else u :: pushDonation userId entry us

/-! ## User login (`POST /api/login`) -/

/-- The user object returned by register/login: the user sans the
password field. -/
structure UserResponse where
  id : Nat
  name : String
  phone : String
  profilePhoto : String
  createdAt : Int
  donations : List DonationEntry
deriving DecidableEq, Repr

/-- Response of `POST /api/login`. -/
inductive LoginRes where
  | unauthorized (msg : String)
  | ok (message : String) (user : UserResponse)
deriving DecidableEq, Repr

/-- `POST /api/login`. The bcrypt comparison
`bcrypt.compare(password, user.password)` is an external collaborator,
passed in as the function `compare`. -/
def login (compare : String → String → Bool) (db : DB)
    (phone password : String) : LoginRes :=
  match db.users.find? (fun u => u.phone == phone) with
  | none => .unauthorized "Invalid phone number or password"
  | some user =>
    if compare password user.password then
      .ok "Login successful"
        { id := user.id, name := user.name, phone := user.phone
          profilePhoto := user.profilePhoto, createdAt := user.createdAt
          donations := user.donations }
    else .unauthorized "Invalid phone number or password"

/-! ## Blood donor (`POST /api/blood-donor`, `GET /api/blood-donors`) -/

/-- Request body of `POST /api/blood-donor` (the fields the handler
destructures; string fields use `""` for an absent/falsy value). -/
structure BloodDonorInput where
  name : String
  phone : String
  age : NumIn
  weight : NumIn
  bloodGroup : String
  hasDonatedBefore : Bool
  lastDonationDate : DateIn
  latitude : Option Int
  longitude : Option Int
  userId : Option Nat
  verificationFile : Option String
deriving DecidableEq, Repr

/-- The record `new BloodDonor({...})` constructs at submission time. -/
def newBloodDonor (db : DB) (i : BloodDonorInput) (ageNum weightNum : Int)
    (lastDate : Option Int) : BloodDonor :=
  { id := db.nextId, name := i.name, phone := i.phone
    age := ageNum, weight := weightNum, bloodGroup := i.bloodGroup
    hasDonatedBefore := i.hasDonatedBefore
    lastDonationDate := lastDate
    latitude := i.latitude, longitude := i.longitude
    verificationFile := i.verificationFile
    isVerified := false, verificationStatus := .pending
    adminNotes := "", submittedAt := db.now, verifiedAt := none }

/-- `new BloodDonor(...); donor.save()` and the 201 response of the
blood-donor handler. -/
def saveBloodDonor (db : DB) (i : BloodDonorInput) (ageNum weightNum : Int)
    (lastDate : Option Int) : PostRes × DB :=
  let donor := newBloodDonor db i ageNum weightNum lastDate
  (PostRes.created donor.id "pending_verification",
   { db with bloodDonors := db.bloodDonors ++ [donor], nextId := db.nextId + 1 })

/-- `POST /api/blood-donor`. -/
def postBloodDonor (db : DB) (i : BloodDonorInput) : PostRes × DB :=
  if i.name == "" || i.phone == "" || !i.age.truthy || !i.weight.truthy
      || i.bloodGroup == "" then
    (.badRequest "Missing required fields", db)
  else if !(validPhone i.phone) then
    (.badRequest "Invalid phone number format", db)
  else
    match i.age with
    | .absent => (.badRequest "Age must be between 18 and 65", db)
    | .nan => (.badRequest "Age must be between 18 and 65", db)
    | .val ageNum =>
      if ageNum < 18 || 65 < ageNum then
        (.badRequest "Age must be between 18 and 65", db)
      else
        match i.weight with
        | .absent => (.badRequest "Weight must be at least 50 kg", db)
        | .nan => (.badRequest "Weight must be at least 50 kg", db)
        | .val weightNum =>
          if weightNum < 50 then
            (.badRequest "Weight must be at least 50 kg", db)
          else
            if i.hasDonatedBefore then
              match i.lastDonationDate with
              | .absent =>
                (.badRequest "Last donation date is required for previous donors", db)
              | .invalid => (.badRequest "Invalid last donation date", db)
              | .at t =>
                if Int.fdiv (db.now - t) 86400000 < 90 then
                  (.badRequest "At least 90 days must have passed since the last donation", db)
                else saveBloodDonor db i ageNum weightNum (some t)
            else saveBloodDonor db i ageNum weightNum none

/-- `GET /api/blood-donors`: only verified donors are returned. -/
def listBloodDonors (db : DB) : List BloodDonor :=
  db.bloodDonors.filter (fun d => d.verificationStatus == .approved)

/-! ## Blood receiver (`POST /api/blood-receiver`,
`GET /api/blood-receiver/matching-donors`) -/

/-- Request body of `POST /api/blood-receiver`. -/
structure BloodReceiverInput where
  name : String
  phone : String
  location : String
  bloodNeed : String
  latitude : Option Int
  longitude : Option Int
  verificationFile : Option String
deriving DecidableEq, Repr

/-- The record `new BloodReceiver({...})` constructs at submission time. -/
def newBloodReceiver (db : DB) (i : BloodReceiverInput) : BloodReceiver :=
  { id := db.nextId, name := i.name, phone := i.phone
    location := i.location, bloodNeed := i.bloodNeed
    latitude := i.latitude, longitude := i.longitude
    proofFile := none, verificationFile := i.verificationFile
    isVerified := false, verificationStatus := .pending
    adminNotes := "", submittedAt := db.now, verifiedAt := none }

/-- `POST /api/blood-receiver` (no validation; always creates). -/
def postBloodReceiver (db : DB) (i : BloodReceiverInput) : PostRes × DB :=
  let receiver := newBloodReceiver db i
  (PostRes.created receiver.id "pending_verification",
   { db with bloodReceivers := db.bloodReceivers ++ [receiver], nextId := db.nextId + 1 })

/-- The receiver summary in the matching-donors response (verification
metadata excluded by construction). -/
structure BloodReceiverSummary where
  name : String
  phone : String
  bloodNeed : String
  location : String
  latitude : Option Int
  longitude : Option Int
deriving DecidableEq, Repr

/-- Response of `GET /api/blood-receiver/matching-donors`. -/
inductive BloodMatchRes where
  | badRequest (msg : String)
  | notFound (msg : String)
  | forbidden (status : VStatus) (msg : String)
  | ok (receiver : BloodReceiverSummary) (donors : List BloodDonor)
deriving DecidableEq, Repr

/-- `GET /api/blood-receiver/matching-donors?phone=...`. -/
def bloodMatchingDonors (db : DB) (phone : String) : BloodMatchRes :=
  if !(validPhone phone) then .badRequest "Valid phone number is required"
  else
    match pickMax
        (fun a b => sortKeyLe (a.verifiedAt, a.submittedAt) (b.verifiedAt, b.submittedAt))
        (db.bloodReceivers.filter
          (fun r => r.phone == phone && r.verificationStatus == .approved)) with
    | some receiver =>
      .ok { name := receiver.name, phone := receiver.phone
            bloodNeed := receiver.bloodNeed, location := receiver.location
            latitude := receiver.latitude, longitude := receiver.longitude }
        (db.bloodDonors.filter
          (fun d => d.bloodGroup == receiver.bloodNeed && d.verificationStatus == .approved))
    | none =>
      match pickMax (fun a b => decide (a.submittedAt ≤ b.submittedAt))
          (db.bloodReceivers.filter (fun r => r.phone == phone)) with
      | none => .notFound "Receiver registration not found. Please register first."
      | some latest =>
        .forbidden latest.verificationStatus
          "Receiver has not been approved yet. Please wait for admin verification."

/-! ## Organ donor (`POST /api/organ-donor`, `GET /api/organ-donors`) -/

/-- Request body of `POST /api/organ-donor`. -/
structure OrganDonorInput where
  name : String
  phone : String
  organType : String
  conditionStatus : String
  weight : NumIn
  hasDonatedBefore : Bool
  lastDonationDate : DateIn
  latitude : Option Int
  longitude : Option Int
  userId : Option Nat
  verificationFile : Option String
deriving DecidableEq, Repr

/-- The record `new OrganDonor({...})` constructs at submission time. -/
def newOrganDonor (db : DB) (i : OrganDonorInput) (weightNum : Int)
    (lastDate : Option Int) : OrganDonor :=
  { id := db.nextId, name := i.name, phone := i.phone
    weight := weightNum, organType := i.organType
    conditionStatus := i.conditionStatus
    hasDonatedBefore := i.hasDonatedBefore
    lastDonationDate := lastDate
    latitude := i.latitude, longitude := i.longitude
    verificationFile := i.verificationFile
    isVerified := false, verificationStatus := .pending
    adminNotes := "", submittedAt := db.now, verifiedAt := none }

/-- `new OrganDonor(...); donor.save()`, the best-effort donation-log
append when `userId` is supplied, and the 201 response. -/
def saveOrganDonor (db : DB) (i : OrganDonorInput) (weightNum : Int)
    (lastDate : Option Int) : PostRes × DB :=
  let donor := newOrganDonor db i weightNum lastDate
  let db1 := { db with organDonors := db.organDonors ++ [donor], nextId := db.nextId + 1 }
  let entry : DonationEntry :=
    .organ donor.id donor.name donor.phone donor.organType donor.conditionStatus
      db.now "pending_verification"
  let db2 :=
    match i.userId with
    | none => db1
    | some u => { db1 with users := pushDonation u entry db1.users }
  (PostRes.created donor.id "pending_verification", db2)

/-- `POST /api/organ-donor`. -/
def postOrganDonor (db : DB) (i : OrganDonorInput) : PostRes × DB :=
  if i.name == "" || i.phone == "" || i.organType == "" || i.conditionStatus == ""
      || !i.weight.truthy then
    (.badRequest "Missing required fields", db)
  else if !(validPhone i.phone) then
    (.badRequest "Invalid phone number format", db)
  else
    match i.weight with
    | .absent => (.badRequest "Weight must be at least 50 kg", db)
    | .nan => (.badRequest "Weight must be at least 50 kg", db)
    | .val weightNum =>
      if weightNum < 50 then
        (.badRequest "Weight must be at least 50 kg", db)
      else
        if i.hasDonatedBefore then
          match i.lastDonationDate with
          | .absent =>
            (.badRequest "Last donation date is required for previous donors", db)
          | .invalid => (.badRequest "Invalid last donation date", db)
          | .at t =>
            if Int.fdiv (db.now - t) 86400000 < 90 then
              (.badRequest "At least 90 days must have passed since the last donation", db)
            else saveOrganDonor db i weightNum (some t)
        else saveOrganDonor db i weightNum none

/-- `GET /api/organ-donors`: all organ donor records, no filter. -/
def listOrganDonors (db : DB) : List OrganDonor :=
  db.organDonors

/-! ## Organ receiver (`POST /api/organ-receiver`,
`GET /api/organ-receiver/matching-donors`) -/

/-- Request body of `POST /api/organ-receiver`. -/
structure OrganReceiverInput where
  name : String
  phone : String
  location : String
  organNeed : String
  medicalCondition : String
  latitude : Option Int
  longitude : Option Int
  verificationFile : Option String
deriving DecidableEq, Repr

/-- The record `new OrganReceiver({...})` constructs at submission time. -/
def newOrganReceiver (db : DB) (i : OrganReceiverInput) : OrganReceiver :=
  { id := db.nextId, name := i.name, phone := i.phone
    location := i.location, organNeed := i.organNeed
    medicalCondition := i.medicalCondition
    latitude := i.latitude, longitude := i.longitude
    proofFile := none, verificationFile := i.verificationFile
    isVerified := false, verificationStatus := .pending
    adminNotes := "", submittedAt := db.now, verifiedAt := none }

/-- `POST /api/organ-receiver` (no validation; always creates). -/
def postOrganReceiver (db : DB) (i : OrganReceiverInput) : PostRes × DB :=
  let receiver := newOrganReceiver db i
  (PostRes.created receiver.id "pending_verification",
   { db with organReceivers := db.organReceivers ++ [receiver], nextId := db.nextId + 1 })

/-- The receiver summary in the organ matching-donors response. -/
structure OrganReceiverSummary where
  name : String
  phone : String
  organNeed : String
  location : String
  latitude : Option Int
  longitude : Option Int
  medicalCondition : String
deriving DecidableEq, Repr

/-- Response of `GET /api/organ-receiver/matching-donors`. -/
inductive OrganMatchRes where
  | badRequest (msg : String)
  | notFound (msg : String)
  | forbidden (status : VStatus) (msg : String)
  | ok (receiver : OrganReceiverSummary) (donors : List OrganDonor)
deriving DecidableEq, Repr

/-- `GET /api/organ-receiver/matching-donors?phone=...`. -/
def organMatchingDonors (db : DB) (phone : String) : OrganMatchRes :=
  if !(validPhone phone) then .badRequest "Valid phone number is required"
  else
    match pickMax
        (fun a b => sortKeyLe (a.verifiedAt, a.submittedAt) (b.verifiedAt, b.submittedAt))
        (db.organReceivers.filter
          (fun r => r.phone == phone && r.verificationStatus == .approved)) with
    | some receiver =>
      .ok { name := receiver.name, phone := receiver.phone
            organNeed := receiver.organNeed, location := receiver.location
            latitude := receiver.latitude, longitude := receiver.longitude
            medicalCondition := receiver.medicalCondition }
        (db.organDonors.filter
          (fun d => d.organType == receiver.organNeed && d.verificationStatus == .approved))
    | none =>
      match pickMax (fun a b => decide (a.submittedAt ≤ b.submittedAt))
          (db.organReceivers.filter (fun r => r.phone == phone)) with
      | none => .notFound "Receiver registration not found. Please register first."
      | some latest =>
        .forbidden latest.verificationStatus
          "Receiver has not been approved yet. Please wait for admin verification."

/-! ## Money donor and receiver (`POST /api/money-donor`,
`POST /api/money-receiver`) -/

/-- Request body of `POST /api/money-donor`. -/
structure MoneyDonorInput where
  donorName : String
  amount : NumIn
  paymentMethod : String
  userId : Option Nat
  verificationFile : Option String
deriving DecidableEq, Repr

/-- The record `new MoneyDonor({...})` constructs at submission time. -/
def newMoneyDonor (db : DB) (i : MoneyDonorInput) : MoneyDonor :=
  { id := db.nextId, donorName := i.donorName, amount := i.amount
    paymentMethod := i.paymentMethod, verificationFile := i.verificationFile
    isVerified := false, verificationStatus := .pending
    adminNotes := "", submittedAt := db.now, verifiedAt := none
    timestamp := db.now }

/-- `POST /api/money-donor` (no validation; always creates, with the
best-effort donation-log append when `userId` is supplied). -/
def postMoneyDonor (db : DB) (i : MoneyDonorInput) : PostRes × DB :=
  let donor := newMoneyDonor db i
  let db1 := { db with moneyDonors := db.moneyDonors ++ [donor], nextId := db.nextId + 1 }
  let entry : DonationEntry :=
    .money donor.id donor.donorName donor.amount donor.paymentMethod
      db.now "pending_verification"
  let db2 :=
    match i.userId with
    | none => db1
    | some u => { db1 with users := pushDonation u entry db1.users }
  (PostRes.created donor.id "pending_verification", db2)

/-- Request body of `POST /api/money-receiver`. -/
structure MoneyReceiverInput where
  name : String
  age : NumIn
  phone : String
  moneyAmount : NumIn
  moneyNeed : String
  verificationFile : Option String
deriving DecidableEq, Repr

/-- The record `new MoneyReceiver({...})` constructs at submission time. -/
def newMoneyReceiver (db : DB) (i : MoneyReceiverInput) : MoneyReceiver :=
  { id := db.nextId, name := i.name, age := i.age, phone := i.phone
    moneyAmount := i.moneyAmount, moneyNeed := i.moneyNeed
    proofFile := none, verificationFile := i.verificationFile
    isVerified := false, verificationStatus := .pending
    adminNotes := "", submittedAt := db.now, verifiedAt := none }

/-- `POST /api/money-receiver` (no validation; always creates). -/
def postMoneyReceiver (db : DB) (i : MoneyReceiverInput) : PostRes × DB :=
  let receiver := newMoneyReceiver db i
  (PostRes.created receiver.id "pending_verification",
   { db with moneyReceivers := db.moneyReceivers ++ [receiver], nextId := db.nextId + 1 })

/-! ## Administrative verification (`GET /api/admin/verification/:type/:id`,
`POST /api/admin/verify`) -/

/-- The six recognised verification kinds. -/
inductive Kind where
  | bloodDonor
  | bloodReceiver
  | organDonor
  | organReceiver
  | moneyDonor
  | moneyReceiver
deriving DecidableEq, Repr

/-- The `['blood-donor', ..., 'money-receiver'].includes(type)` check
together with the `switch (type)` dispatch. -/
def parseKind (s : String) : Option Kind :=
  if s == "blood-donor" then some .bloodDonor
  else if s == "blood-receiver" then some .bloodReceiver
  else if s == "organ-donor" then some .organDonor
  else if s == "organ-receiver" then some .organReceiver
  else if s == "money-donor" then some .moneyDonor
  else if s == "money-receiver" then some .moneyReceiver
  else none

/-- A record of any of the six collections, as returned by the admin
endpoints. -/
inductive AnyRecord where
  | bloodDonor (r : BloodDonor)
  | bloodReceiver (r : BloodReceiver)
  | organDonor (r : OrganDonor)
  | organReceiver (r : OrganReceiver)
  | moneyDonor (r : MoneyDonor)
  | moneyReceiver (r : MoneyReceiver)
deriving DecidableEq, Repr

/-- The verification envelope of a record: the fields the admin-verify
operation writes. -/
structure Envelope where
  isVerified : Bool
  verificationStatus : VStatus
  adminNotes : String
  verifiedAt : Option Int
deriving DecidableEq, Repr

/-- Verification envelope of a record of any kind. -/
def AnyRecord.env : AnyRecord → Envelope
  | .bloodDonor r =>
    { isVerified := r.isVerified, verificationStatus := r.verificationStatus
      adminNotes := r.adminNotes, verifiedAt := r.verifiedAt }
  | .bloodReceiver r =>
    { isVerified := r.isVerified, verificationStatus := r.verificationStatus
      adminNotes := r.adminNotes, verifiedAt := r.verifiedAt }
  | .organDonor r =>
    { isVerified := r.isVerified, verificationStatus := r.verificationStatus
      adminNotes := r.adminNotes, verifiedAt := r.verifiedAt }
  | .organReceiver r =>
    { isVerified := r.isVerified, verificationStatus := r.verificationStatus
      adminNotes := r.adminNotes, verifiedAt := r.verifiedAt }
  | .moneyDonor r =>
    { isVerified := r.isVerified, verificationStatus := r.verificationStatus
      adminNotes := r.adminNotes, verifiedAt := r.verifiedAt }
  | .moneyReceiver r =>
    { isVerified := r.isVerified, verificationStatus := r.verificationStatus
      adminNotes := r.adminNotes, verifiedAt := r.verifiedAt }

/-- `model.findById(id)` for the collection selected by `kind`. -/
def findRec (db : DB) (k : Kind) (recId : Nat) : Option AnyRecord :=
  match k with
  | .bloodDonor => (findById (fun r => r.id) recId db.bloodDonors).map .bloodDonor
  | .bloodReceiver => (findById (fun r => r.id) recId db.bloodReceivers).map .bloodReceiver
  | .organDonor => (findById (fun r => r.id) recId db.organDonors).map .organDonor
  | .organReceiver => (findById (fun r => r.id) recId db.organReceivers).map .organReceiver
  | .moneyDonor => (findById (fun r => r.id) recId db.moneyDonors).map .moneyDonor
  | .moneyReceiver => (findById (fun r => r.id) recId db.moneyReceivers).map .moneyReceiver

/-- Response of `GET /api/admin/verification/:type/:id`. -/
inductive DetailRes where
  | badRequest (msg : String)
  | notFound (msg : String)
  | ok (item : AnyRecord)
deriving DecidableEq, Repr

/-- `GET /api/admin/verification/:type/:id`. -/
def getVerificationDetail (db : DB) (typeStr : String) (recId : Nat) : DetailRes :=
  match parseKind typeStr with
  | none => .badRequest "Invalid verification type"
  | some k =>
    match findRec db k recId with
    | none => .notFound "Verification not found"
    | some item => .ok item

/-- Response of `POST /api/admin/verify`. -/
inductive VerifyRes where
  | badRequest (msg : String)
  | notFound (msg : String)
  | ok (message : String) (record : AnyRecord)
deriving DecidableEq, Repr

/-- The `updateData` object of the admin-verify handler, applied to a
blood donor record: sets `verificationStatus`, `verifiedAt = new Date()`,
`isVerified = (status === approved)`, `adminNotes = notes or ''`. -/
def updateDataBD (status : String) (now : Int) (notes : Option String)
    (d : BloodDonor) : BloodDonor :=
  { d with
    verificationStatus := if status == "approved" then .approved else .rejected
    verifiedAt := some now
    isVerified := status == "approved"
    adminNotes := notes.getD "" }

/-- `updateData` applied to a blood receiver record. -/
def updateDataBR (status : String) (now : Int) (notes : Option String)
    (d : BloodReceiver) : BloodReceiver :=
  { d with
    verificationStatus := if status == "approved" then .approved else .rejected
    verifiedAt := some now
    isVerified := status == "approved"
    adminNotes := notes.getD "" }

/-- `updateData` applied to an organ donor record. -/
def updateDataOD (status : String) (now : Int) (notes : Option String)
    (d : OrganDonor) : OrganDonor :=
  { d with
    verificationStatus := if status == "approved" then .approved else .rejected
    verifiedAt := some now
    isVerified := status == "approved"
    adminNotes := notes.getD "" }

/-- `updateData` applied to an organ receiver record. -/
def updateDataOR (status : String) (now : Int) (notes : Option String)
    (d : OrganReceiver) : OrganReceiver :=
  { d with
    verificationStatus := if status == "approved" then .approved else .rejected
    verifiedAt := some now
    isVerified := status == "approved"
    adminNotes := notes.getD "" }

/-- `updateData` applied to a money donor record. -/
def updateDataMD (status : String) (now : Int) (notes : Option String)
    (d : MoneyDonor) : MoneyDonor :=
  { d with
    verificationStatus := if status == "approved" then .approved else .rejected
    verifiedAt := some now
    isVerified := status == "approved"
    adminNotes := notes.getD "" }

/-- `updateData` applied to a money receiver record. -/
def updateDataMR (status : String) (now : Int) (notes : Option String)
    (d : MoneyReceiver) : MoneyReceiver :=
  { d with
    verificationStatus := if status == "approved" then .approved else .rejected
    verifiedAt := some now
    isVerified := status == "approved"
    adminNotes := notes.getD "" }

/-- `POST /api/admin/verify`. The `updateData` object is applied through
`findByIdAndUpdate` on the collection selected by `type`. -/
def adminVerify (db : DB) (typeStr : String) (recId : Nat) (status : String)
    (notes : Option String) : VerifyRes × DB :=
  match parseKind typeStr with
  | none => (.badRequest "Invalid verification type", db)
  | some k =>
    if !(status == "approved" || status == "rejected") then
      (.badRequest "Invalid status", db)
    else
      let msg := "Verification " ++ status ++ " successfully"
      match k with
      | .bloodDonor =>
        let r := findByIdAndUpdate (fun d => d.id) recId
          (updateDataBD status db.now notes) db.bloodDonors
        match r.1 with
        | none => (.notFound "Record not found", db)
        | some u => (.ok msg (.bloodDonor u), { db with bloodDonors := r.2 })
      | .bloodReceiver =>
        let r := findByIdAndUpdate (fun d => d.id) recId
          (updateDataBR status db.now notes) db.bloodReceivers
        match r.1 with
        | none => (.notFound "Record not found", db)
        | some u => (.ok msg (.bloodReceiver u), { db with bloodReceivers := r.2 })
      | .organDonor =>
        let r := findByIdAndUpdate (fun d => d.id) recId
          (updateDataOD status db.now notes) db.organDonors
        match r.1 with
        | none => (.notFound "Record not found", db)
        | some u => (.ok msg (.organDonor u), { db with organDonors := r.2 })
      | .organReceiver =>
        let r := findByIdAndUpdate (fun d => d.id) recId
          (updateDataOR status db.now notes) db.organReceivers
        match r.1 with
        | none => (.notFound "Record not found", db)
        | some u => (.ok msg (.organReceiver u), { db with organReceivers := r.2 })
      | .moneyDonor =>
        let r := findByIdAndUpdate (fun d => d.id) recId
          (updateDataMD status db.now notes) db.moneyDonors
        match r.1 with
        | none => (.notFound "Record not found", db)
        | some u => (.ok msg (.moneyDonor u), { db with moneyDonors := r.2 })
      | .moneyReceiver =>
        let r := findByIdAndUpdate (fun d => d.id) recId
          (updateDataMR status db.now notes) db.moneyReceivers
        match r.1 with
        | none => (.notFound "Record not found", db)
        | some u => (.ok msg (.moneyReceiver u), { db with moneyReceivers := r.2 })

/-! ## Operation sequences

The operations that create or mutate donor/receiver records: the six
submission handlers and the admin-verify handler, plus a clock advance.
(User-account routes never touch donor/receiver collections.) -/

/-- One request against the service. -/
inductive Op where
  | postBloodDonor (i : BloodDonorInput)
  | postBloodReceiver (i : BloodReceiverInput)
  | postOrganDonor (i : OrganDonorInput)
  | postOrganReceiver (i : OrganReceiverInput)
  | postMoneyDonor (i : MoneyDonorInput)
  | postMoneyReceiver (i : MoneyReceiverInput)
  | adminVerify (typeStr : String) (recId : Nat) (status : String) (notes : Option String)
  | tick (d : Nat)
deriving DecidableEq, Repr

/-- Effect of one request on the store. -/
def step (db : DB) : Op → DB
  | .postBloodDonor i => (postBloodDonor db i).2
  | .postBloodReceiver i => (postBloodReceiver db i).2
  | .postOrganDonor i => (postOrganDonor db i).2
  | .postOrganReceiver i => (postOrganReceiver db i).2
  | .postMoneyDonor i => (postMoneyDonor db i).2
  | .postMoneyReceiver i => (postMoneyReceiver db i).2
  | .adminVerify t recId status notes => (adminVerify db t recId status notes).2
  | .tick d => { db with now := db.now + d }

/-- Effect of a request sequence. -/
def run (db : DB) : List Op → DB
  | [] => db
  | op :: ops => run (step db op) ops

/-- The `isVerified = (verificationStatus == approved)` coupling, for
every record of every donor/receiver collection. -/
def DB.envInv (db : DB) : Prop :=
  (∀ r ∈ db.bloodDonors, r.isVerified = (r.verificationStatus == VStatus.approved))
  ∧ (∀ r ∈ db.bloodReceivers, r.isVerified = (r.verificationStatus == VStatus.approved))
  ∧ (∀ r ∈ db.organDonors, r.isVerified = (r.verificationStatus == VStatus.approved))
  ∧ (∀ r ∈ db.organReceivers, r.isVerified = (r.verificationStatus == VStatus.approved))
  ∧ (∀ r ∈ db.moneyDonors, r.isVerified = (r.verificationStatus == VStatus.approved))
  ∧ (∀ r ∈ db.moneyReceivers, r.isVerified = (r.verificationStatus == VStatus.approved))

instance (db : DB) : Decidable db.envInv := by
  unfold DB.envInv
  infer_instance

/-- The `verificationStatus` of the record of kind `k` with id `recId`,
if present. -/
def statusOf (db : DB) (k : Kind) (recId : Nat) : Option VStatus :=
  (findRec db k recId).map (fun r => r.env.verificationStatus)

/-- A well-formed blood-donor submission body, parameterised by the
fields the eligibility rules inspect. -/
def sampleBloodDonorInput (age : NumIn) (donatedBefore : Bool) (date : DateIn) :
    BloodDonorInput :=
  { name := "Asha", phone := "9876543210", age := age, weight := .val 60
    bloodGroup := "O+", hasDonatedBefore := donatedBefore, lastDonationDate := date
    latitude := none, longitude := none, userId := none, verificationFile := none }

/-- A well-formed organ-donor submission body. -/
def sampleOrganDonorInput (userId : Option Nat) (donatedBefore : Bool) (date : DateIn) :
    OrganDonorInput :=
  { name := "Ravi", phone := "9876543211", organType := "kidney"
    conditionStatus := "stable", weight := .val 70
    hasDonatedBefore := donatedBefore, lastDonationDate := date
    latitude := none, longitude := none, userId := userId, verificationFile := none }

/-- A money-donor submission body. -/
def sampleMoneyDonorInput (userId : Option Nat) : MoneyDonorInput :=
  { donorName := "Kiran", amount := .val 500, paymentMethod := "upi"
    userId := userId, verificationFile := none }

/-- A registered user record. -/
def sampleUser (uid : Nat) : User :=
  { id := uid, name := "Uma", phone := "9000000000", password := "hashedpw"
    profilePhoto := "p.png", createdAt := 0, donations := [] }

/-! ## Lemmas about the document-store primitives -/

theorem pickMax_exists_of_ne_nil {α : Type} (le : α → α → Bool) (l : List α)
    (hl : l ≠ []) : ∃ x, pickMax le l = some x := by
  match l with
  | x :: xs =>
    simp only [pickMax]
    cases h : pickMax le xs with
    | none => exact ⟨x, rfl⟩
    | some y =>
      by_cases hle : le y x
      · exact ⟨x, by simp [hle]⟩
      · exact ⟨y, by simp [hle]⟩

theorem pickMax_mem {α : Type} (le : α → α → Bool) :
    ∀ (l : List α) (x : α), pickMax le l = some x → x ∈ l := by
  intro l
  induction l with
  | nil => intro x h; simp [pickMax] at h
  | cons a as ih =>
    intro x h
    cases hm : pickMax le as with
    | none =>
      simp only [pickMax, hm] at h
      have hax : a = x := Option.some.inj h
      exact List.mem_cons.mpr (Or.inl hax.symm)
    | some y =>
      simp only [pickMax, hm] at h
      by_cases hle : le y a = true
      · rw [if_pos hle] at h
        exact List.mem_cons.mpr (Or.inl (Option.some.inj h).symm)
      · rw [if_neg hle] at h
        have hyx : y = x := Option.some.inj h
        exact List.mem_cons.mpr (Or.inr (hyx ▸ ih y hm))

theorem pickMax_le {α : Type} (le : α → α → Bool)
    (hrefl : ∀ a, le a a = true)
    (htot : ∀ a b, le a b = true ∨ le b a = true)
    (htrans : ∀ a b c, le a b = true → le b c = true → le a c = true) :
    ∀ (l : List α) (x : α), pickMax le l = some x → ∀ y ∈ l, le y x = true := by
  intro l
  induction l with
  | nil => intro x h; simp [pickMax] at h
  | cons a as ih =>
    intro x h y hy
    cases hm : pickMax le as with
    | none =>
      simp only [pickMax, hm] at h
      have hax : a = x := Option.some.inj h
      have has : as = [] := by
        cases as with
        | nil => rfl
        | cons b bs =>
          rcases pickMax_exists_of_ne_nil le (b :: bs) (by simp) with ⟨z, hz⟩
          rw [hz] at hm
          exact absurd hm (by simp)
      subst has
      rcases List.mem_cons.mp hy with hya | hyas
      · rw [hya, ← hax]; exact hrefl a
      · simp at hyas
    | some z =>
      simp only [pickMax, hm] at h
      by_cases hle : le z a = true
      · rw [if_pos hle] at h
        have hax : a = x := Option.some.inj h
        rcases List.mem_cons.mp hy with hya | hyas
        · rw [hya, ← hax]; exact hrefl a
        · exact hax ▸ htrans y z a (ih z hm y hyas) hle
      · rw [if_neg hle] at h
        have hzx : z = x := Option.some.inj h
        rcases List.mem_cons.mp hy with hya | hyas
        · rcases htot y z with h1 | h2
          · exact hzx ▸ h1
          · rw [hya] at h2
            exact absurd h2 hle
        · exact hzx ▸ ih z hm y hyas

theorem optLt_irrefl (a : Option Int) : optLt a a = false := by
  cases a <;> simp [optLt]

theorem sortKeyLe_refl (a : Option Int × Int) : sortKeyLe a a = true := by
  obtain ⟨f, s⟩ := a
  cases f <;> simp [sortKeyLe, optLt]

theorem sortKeyLe_total (a b : Option Int × Int) :
    sortKeyLe a b = true ∨ sortKeyLe b a = true := by
  obtain ⟨f1, s1⟩ := a
  obtain ⟨f2, s2⟩ := b
  cases f1 <;> cases f2 <;> simp [sortKeyLe, optLt] <;> omega

theorem sortKeyLe_trans (a b c : Option Int × Int)
    (h1 : sortKeyLe a b = true) (h2 : sortKeyLe b c = true) :
    sortKeyLe a c = true := by
  obtain ⟨f1, s1⟩ := a
  obtain ⟨f2, s2⟩ := b
  obtain ⟨f3, s3⟩ := c
  cases f1 <;> cases f2 <;> cases f3 <;>
    simp [sortKeyLe, optLt] at * <;> omega

theorem findById_append_left {α : Type} (getId : α → Nat) (recId : Nat) :
    ∀ (l₁ l₂ : List α) (x : α), findById getId recId l₁ = some x →
      findById getId recId (l₁ ++ l₂) = some x := by
  intro l₁ l₂ x h
  induction l₁ with
  | nil => simp [findById] at h
  | cons a as ih =>
    simp only [findById, List.find?] at h ⊢
    cases ha : getId a == recId with
    | true => rw [ha] at h; simpa using h
    | false => rw [ha] at h; exact ih h

theorem findByIdAndUpdate_fst {α : Type} (getId : α → Nat) (recId : Nat)
    (f : α → α) :
    ∀ l : List α,
      (findByIdAndUpdate getId recId f l).1 = (findById getId recId l).map f := by
  intro l
  induction l with
  | nil => rfl
  | cons a as ih =>
    simp only [findByIdAndUpdate, findById, List.find?]
    cases ha : getId a == recId with
    | true => simp [ha]
    | false => simpa [ha] using ih

theorem findByIdAndUpdate_snd_of_none {α : Type} (getId : α → Nat) (recId : Nat)
    (f : α → α) :
    ∀ l : List α, findById getId recId l = none →
      (findByIdAndUpdate getId recId f l).2 = l := by
  intro l h
  induction l with
  | nil => rfl
  | cons a as ih =>
    simp only [findById, List.find?] at h
    simp only [findByIdAndUpdate]
    cases ha : getId a == recId with
    | true => rw [ha] at h; simp at h
    | false =>
      rw [ha] at h
      simp only [Bool.false_eq_true, if_false, List.cons.injEq, true_and]
      exact ih h

theorem findById_findByIdAndUpdate {α : Type} (getId : α → Nat) (recId : Nat)
    (f : α → α) (hf : ∀ x, getId (f x) = getId x) :
    ∀ (l : List α) (x : α), findById getId recId l = some x →
      findById getId recId (findByIdAndUpdate getId recId f l).2 = some (f x) := by
  intro l
  induction l with
  | nil => intro x h; simp [findById] at h
  | cons a as ih =>
    intro x h
    simp only [findById, List.find?] at h
    simp only [findByIdAndUpdate]
    cases ha : getId a == recId with
    | true =>
      rw [ha] at h
      simp only [Option.some.injEq] at h
      subst h
      simp only [ha, if_true, findById, List.find?, hf, ha]
    | false =>
      rw [ha] at h
      simp only [Bool.false_eq_true, if_false, findById, List.find?, ha]
      exact ih x h

theorem findById_findByIdAndUpdate_ne {α : Type} (getId : α → Nat)
    (i j : Nat) (f : α → α) (hf : ∀ x, getId (f x) = getId x) (hij : j ≠ i) :
    ∀ l : List α,
      findById getId j (findByIdAndUpdate getId i f l).2 = findById getId j l := by
  intro l
  induction l with
  | nil => rfl
  | cons a as ih =>
    simp only [findByIdAndUpdate]
    cases ha : getId a == i with
    | true =>
      have hai : getId a = i := by simpa using ha
      simp only [ha, if_true, findById, List.find?, hf]
      have : (getId a == j) = false := by simp [hai]; omega
      rw [this]
    | false =>
      simp only [Bool.false_eq_true, if_false, findById, List.find?]
      cases haj : getId a == j with
      | true => rfl
      | false => exact ih

theorem findByIdAndUpdate_snd_forall {α : Type} (getId : α → Nat) (recId : Nat)
    (f : α → α) (P : α → Prop) (hP : ∀ x, P (f x)) :
    ∀ l : List α, (∀ y ∈ l, P y) →
      ∀ y ∈ (findByIdAndUpdate getId recId f l).2, P y := by
  intro l
  induction l with
  | nil => intro h y hy; simp [findByIdAndUpdate] at hy
  | cons a as ih =>
    intro h y hy
    simp only [findByIdAndUpdate] at hy
    cases ha : getId a == recId with
    | true =>
      rw [ha] at hy
      simp only [if_true] at hy
      rcases List.mem_cons.mp hy with h1 | h2
      · subst h1; exact hP a
      · exact h y (List.mem_cons_of_mem a h2)
    | false =>
      rw [ha] at hy
      simp only [Bool.false_eq_true, if_false] at hy
      rcases List.mem_cons.mp hy with h1 | h2
      · exact h y (List.mem_cons.mpr (Or.inl h1))
      · exact ih (fun z hz => h z (List.mem_cons_of_mem a hz)) y h2

theorem pushDonation_not_found (u : Nat) (e : DonationEntry) :
    ∀ us : List User, (∀ x ∈ us, x.id ≠ u) → pushDonation u e us = us := by
  intro us h
  induction us with
  | nil => rfl
  | cons a as ih =>
    simp only [pushDonation]
    have ha : (a.id == u) = false := by
      simp only [beq_eq_false_iff_ne, ne_eq]
      exact h a (List.mem_cons_self a as)
    simp only [ha, Bool.false_eq_true, if_false, List.cons.injEq, true_and]
    exact ih (fun x hx => h x (List.mem_cons_of_mem a hx))

theorem pushDonation_found (u : Nat) (e : DonationEntry) :
    ∀ (pre : List User) (x : User) (post : List User),
      (∀ y ∈ pre, y.id ≠ u) → x.id = u →
      pushDonation u e (pre ++ x :: post) =
        pre ++ { x with donations := x.donations ++ [e] } :: post := by
  intro pre
  induction pre with
  | nil =>
    intro x post _ hx
    simp only [List.nil_append, pushDonation]
    simp [hx]
  | cons a as ih =>
    intro x post hpre hx
    simp only [List.cons_append, pushDonation]
    have ha : (a.id == u) = false := by
      simp only [beq_eq_false_iff_ne, ne_eq]
      exact hpre a (List.mem_cons_self a as)
    simp only [ha, Bool.false_eq_true, if_false, List.cons.injEq, true_and]
    exact ih x post (fun y hy => hpre y (List.mem_cons_of_mem a hy)) hx

/-! ## Claims -/

/-- Everything the blood-donor handler guarantees about a request it
accepts with 201. -/
theorem postBloodDonor_created_inv (db : DB) (i : BloodDonorInput) (recId : Nat)
    (st : String) (h : (postBloodDonor db i).1 = .created recId st) :
    st = "pending_verification" ∧ recId = db.nextId
    ∧ i.name ≠ "" ∧ i.phone ≠ "" ∧ i.bloodGroup ≠ ""
    ∧ validPhone i.phone = true
    ∧ (∃ a, i.age = NumIn.val a ∧ 18 ≤ a ∧ a ≤ 65)
    ∧ (∃ w, i.weight = NumIn.val w ∧ 50 ≤ w) := by
  unfold postBloodDonor saveBloodDonor at h
  repeat' split at h
  all_goals simp_all [NumIn.truthy, newBloodDonor]

/-- The blood-donor handler answers either 400 or 201. -/
theorem postBloodDonor_total (db : DB) (i : BloodDonorInput) :
    (∃ msg, (postBloodDonor db i).1 = .badRequest msg) ∨
    ∃ recId st, (postBloodDonor db i).1 = .created recId st := by
  cases h : (postBloodDonor db i).1 with
  | created r s => exact Or.inr ⟨r, s, rfl⟩
  | badRequest m => exact Or.inl ⟨m, rfl⟩

/-- C5: a blood donor submission is accepted (201, status
`pending_verification`) only when name, phone, age, weight and blood
group are present, the phone has ten digits, the age lies in [18, 65]
and the weight is at least 50; any violation yields BadRequest. Ages 17
and 66 are rejected, 18 and 65 accepted. -/
theorem bloodDonor_validation :
    (∀ (db : DB) (i : BloodDonorInput) (recId : Nat) (st : String),
        (postBloodDonor db i).1 = .created recId st →
        st = "pending_verification"
        ∧ i.name ≠ "" ∧ i.phone ≠ "" ∧ i.bloodGroup ≠ ""
        ∧ validPhone i.phone = true
        ∧ (∃ a, i.age = NumIn.val a ∧ 18 ≤ a ∧ a ≤ 65)
        ∧ (∃ w, i.weight = NumIn.val w ∧ 50 ≤ w))
    ∧ (∀ (db : DB) (i : BloodDonorInput),
        (i.name = "" ∨ i.phone = "" ∨ i.bloodGroup = ""
         ∨ validPhone i.phone = false
         ∨ (∀ a : Int, i.age = NumIn.val a → a < 18 ∨ 65 < a)
         ∨ (∀ w : Int, i.weight = NumIn.val w → w < 50)) →
        ∃ msg, (postBloodDonor db i).1 = .badRequest msg)
    ∧ (postBloodDonor initDB (sampleBloodDonorInput (.val 17) false .absent)).1 =
        .badRequest "Age must be between 18 and 65"
    ∧ (postBloodDonor initDB (sampleBloodDonorInput (.val 66) false .absent)).1 =
        .badRequest "Age must be between 18 and 65"
    ∧ (postBloodDonor initDB (sampleBloodDonorInput (.val 18) false .absent)).1 =
        .created 0 "pending_verification"
    ∧ (postBloodDonor initDB (sampleBloodDonorInput (.val 65) false .absent)).1 =
        .created 0 "pending_verification" := by
  refine ⟨?_, ?_, by decide, by decide, by decide, by decide⟩
  · intro db i recId st h
    have h2 := postBloodDonor_created_inv db i recId st h
    tauto
  · intro db i hbad
    rcases postBloodDonor_total db i with hb | ⟨recId, st, hc⟩
    · exact hb
    · exfalso
      obtain ⟨_, _, hn, hp, hg, hvp, ⟨a, ha, ha1, ha2⟩, ⟨w, hw, hw1⟩⟩ :=
        postBloodDonor_created_inv db i recId st hc
      rcases hbad with h | h | h | h | h | h
      · exact hn h
      · exact hp h
      · exact hg h
      · rw [hvp] at h; simp at h
      · rcases h a ha with h1 | h1 <;> omega
      · have := h w hw; omega

/-- Witness for C5: the under-age rejection obtained through the
theorem itself. -/
theorem bloodDonor_validation_witness :
    ∃ msg, (postBloodDonor initDB (sampleBloodDonorInput (.val 17) false .absent)).1 =
      .badRequest msg :=
  bloodDonor_validation.2.1 initDB (sampleBloodDonorInput (.val 17) false .absent)
    (Or.inr (Or.inr (Or.inr (Or.inr (Or.inl (by intro a ha; cases ha; omega))))))

/-- Cooldown behaviour of the blood-donor handler once all other
validations pass. -/
theorem donation_cooldown_blood (db : DB) (i : BloodDonorInput) (a w : Int)
    (hdb : i.hasDonatedBefore = true)
    (hn : i.name ≠ "") (hp : i.phone ≠ "") (hg : i.bloodGroup ≠ "")
    (hvp : validPhone i.phone = true)
    (ha : i.age = NumIn.val a) (ha1 : 18 ≤ a) (ha2 : a ≤ 65)
    (hw : i.weight = NumIn.val w) (hw1 : 50 ≤ w) :
    (i.lastDonationDate = .absent →
        (postBloodDonor db i).1 =
          .badRequest "Last donation date is required for previous donors")
    ∧ (i.lastDonationDate = .invalid →
        (postBloodDonor db i).1 = .badRequest "Invalid last donation date")
    ∧ (∀ t : Int, i.lastDonationDate = .at t →
        (Int.fdiv (db.now - t) 86400000 < 90 →
          (postBloodDonor db i).1 =
            .badRequest "At least 90 days must have passed since the last donation")
        ∧ (90 ≤ Int.fdiv (db.now - t) 86400000 →
          (postBloodDonor db i).1 = .created db.nextId "pending_verification")) := by
  have hn' : (i.name == "") = false := beq_eq_false_iff_ne.mpr hn
  have hp' : (i.phone == "") = false := beq_eq_false_iff_ne.mpr hp
  have hg' : (i.bloodGroup == "") = false := beq_eq_false_iff_ne.mpr hg
  have ha1' : ¬(a < 18) := by omega
  have ha2' : ¬(65 < a) := by omega
  have hw1' : ¬(w < 50) := by omega
  refine ⟨?_, ?_, ?_⟩
  · intro hd
    simp [postBloodDonor, hn', hp', hg', hvp, ha, hw, NumIn.truthy, ha1', ha2', hw1', hdb, hd]
  · intro hd
    simp [postBloodDonor, hn', hp', hg', hvp, ha, hw, NumIn.truthy, ha1', ha2', hw1', hdb, hd]
  · intro t hd
    constructor
    · intro hlt
      simp [postBloodDonor, hn', hp', hg', hvp, ha, hw, NumIn.truthy, ha1', ha2', hw1', hdb,
        hd, hlt]
    · intro hge
      have hnl : ¬(Int.fdiv (db.now - t) 86400000 < 90) := by omega
      simp [postBloodDonor, saveBloodDonor, newBloodDonor, hn', hp', hg', hvp, ha, hw,
        NumIn.truthy, ha1', ha2', hw1', hdb, hd, hnl]

/-- Cooldown behaviour of the organ-donor handler once all other
validations pass. -/
theorem donation_cooldown_organ (db : DB) (i : OrganDonorInput) (w : Int)
    (hdb : i.hasDonatedBefore = true)
    (hn : i.name ≠ "") (hp : i.phone ≠ "") (ho : i.organType ≠ "")
    (hc : i.conditionStatus ≠ "")
    (hvp : validPhone i.phone = true)
    (hw : i.weight = NumIn.val w) (hw1 : 50 ≤ w) :
    (i.lastDonationDate = .absent →
        (postOrganDonor db i).1 =
          .badRequest "Last donation date is required for previous donors")
    ∧ (i.lastDonationDate = .invalid →
        (postOrganDonor db i).1 = .badRequest "Invalid last donation date")
    ∧ (∀ t : Int, i.lastDonationDate = .at t →
        (Int.fdiv (db.now - t) 86400000 < 90 →
          (postOrganDonor db i).1 =
            .badRequest "At least 90 days must have passed since the last donation")
        ∧ (90 ≤ Int.fdiv (db.now - t) 86400000 →
          (postOrganDonor db i).1 = .created db.nextId "pending_verification")) := by
  have hn' : (i.name == "") = false := beq_eq_false_iff_ne.mpr hn
  have hp' : (i.phone == "") = false := beq_eq_false_iff_ne.mpr hp
  have ho' : (i.organType == "") = false := beq_eq_false_iff_ne.mpr ho
  have hc' : (i.conditionStatus == "") = false := beq_eq_false_iff_ne.mpr hc
  have hw1' : ¬(w < 50) := by omega
  refine ⟨?_, ?_, ?_⟩
  · intro hd
    simp [postOrganDonor, hn', hp', ho', hc', hvp, hw, NumIn.truthy, hw1', hdb, hd]
  · intro hd
    simp [postOrganDonor, hn', hp', ho', hc', hvp, hw, NumIn.truthy, hw1', hdb, hd]
  · intro t hd
    constructor
    · intro hlt
      simp [postOrganDonor, hn', hp', ho', hc', hvp, hw, NumIn.truthy, hw1', hdb, hd, hlt]
    · intro hge
      have hnl : ¬(Int.fdiv (db.now - t) 86400000 < 90) := by omega
      simp [postOrganDonor, saveOrganDonor, newOrganDonor, hn', hp', ho', hc', hvp, hw,
        NumIn.truthy, hw1', hdb, hd, hnl]

/-- C6: for blood and organ donors with `hasDonatedBefore`, the last
donation date is required and must parse; the submission is rejected
exactly when fewer than 90 whole (floored) days have passed, with 89
days ago rejected and 90 days ago accepted at the boundary. -/
theorem donation_cooldown :
    (∀ (db : DB) (i : BloodDonorInput) (a w : Int),
        i.hasDonatedBefore = true →
        i.name ≠ "" → i.phone ≠ "" → i.bloodGroup ≠ "" →
        validPhone i.phone = true →
        i.age = NumIn.val a → 18 ≤ a → a ≤ 65 →
        i.weight = NumIn.val w → 50 ≤ w →
        ((i.lastDonationDate = .absent →
            (postBloodDonor db i).1 =
              .badRequest "Last donation date is required for previous donors")
         ∧ (i.lastDonationDate = .invalid →
            (postBloodDonor db i).1 = .badRequest "Invalid last donation date")
         ∧ (∀ t : Int, i.lastDonationDate = .at t →
            (Int.fdiv (db.now - t) 86400000 < 90 →
              (postBloodDonor db i).1 =
                .badRequest "At least 90 days must have passed since the last donation")
            ∧ (90 ≤ Int.fdiv (db.now - t) 86400000 →
              (postBloodDonor db i).1 = .created db.nextId "pending_verification"))))
    ∧ (∀ (db : DB) (i : OrganDonorInput) (w : Int),
        i.hasDonatedBefore = true →
        i.name ≠ "" → i.phone ≠ "" → i.organType ≠ "" → i.conditionStatus ≠ "" →
        validPhone i.phone = true →
        i.weight = NumIn.val w → 50 ≤ w →
        ((i.lastDonationDate = .absent →
            (postOrganDonor db i).1 =
              .badRequest "Last donation date is required for previous donors")
         ∧ (i.lastDonationDate = .invalid →
            (postOrganDonor db i).1 = .badRequest "Invalid last donation date")
         ∧ (∀ t : Int, i.lastDonationDate = .at t →
            (Int.fdiv (db.now - t) 86400000 < 90 →
              (postOrganDonor db i).1 =
                .badRequest "At least 90 days must have passed since the last donation")
            ∧ (90 ≤ Int.fdiv (db.now - t) 86400000 →
              (postOrganDonor db i).1 = .created db.nextId "pending_verification"))))
    ∧ (postBloodDonor { initDB with now := 100 * 86400000 }
        (sampleBloodDonorInput (.val 30) true (.at (11 * 86400000)))).1 =
        .badRequest "At least 90 days must have passed since the last donation"
    ∧ (postBloodDonor { initDB with now := 100 * 86400000 }
        (sampleBloodDonorInput (.val 30) true (.at (10 * 86400000)))).1 =
        .created 0 "pending_verification"
    ∧ (postOrganDonor { initDB with now := 100 * 86400000 }
        (sampleOrganDonorInput none true (.at (11 * 86400000)))).1 =
        .badRequest "At least 90 days must have passed since the last donation"
    ∧ (postOrganDonor { initDB with now := 100 * 86400000 }
        (sampleOrganDonorInput none true (.at (10 * 86400000)))).1 =
        .created 0 "pending_verification" := by
  refine ⟨?_, ?_, by decide, by decide, by decide, by decide⟩
  · intro db i a w hdb hn hp hg hvp ha ha1 ha2 hw hw1
    exact donation_cooldown_blood db i a w hdb hn hp hg hvp ha ha1 ha2 hw hw1
  · intro db i w hdb hn hp ho hc hvp hw hw1
    exact donation_cooldown_organ db i w hdb hn hp ho hc hvp hw hw1

/-- Witness for C6: the 89-day rejection obtained through the theorem
itself. -/
theorem donation_cooldown_witness :
    (postBloodDonor { initDB with now := 100 * 86400000 }
      (sampleBloodDonorInput (.val 30) true (.at (11 * 86400000)))).1 =
      .badRequest "At least 90 days must have passed since the last donation" :=
  ((donation_cooldown.1 { initDB with now := 100 * 86400000 }
      (sampleBloodDonorInput (.val 30) true (.at (11 * 86400000))) 30 60
      rfl (by decide) (by decide) (by decide) (by decide) rfl (by decide) (by decide)
      rfl (by decide)).2.2 (11 * 86400000) rfl).1 (by decide)

/-- The organ-donor handler either rejects with the store untouched or
runs the save step with the validated weight and last-donation date. -/
theorem postOrganDonor_cases (db : DB) (i : OrganDonorInput) :
    ((postOrganDonor db i).1.isCreated = false ∧ (postOrganDonor db i).2 = db) ∨
    ∃ w ld, postOrganDonor db i = saveOrganDonor db i w ld := by
  unfold postOrganDonor
  repeat' split
  all_goals first
    | exact Or.inl ⟨rfl, rfl⟩
    | exact Or.inr ⟨_, _, rfl⟩

theorem saveOrganDonor_fst (db : DB) (i : OrganDonorInput) (w : Int) (ld : Option Int) :
    (saveOrganDonor db i w ld).1 = .created db.nextId "pending_verification" := by
  cases h : i.userId <;> simp [saveOrganDonor, h, newOrganDonor]

theorem saveOrganDonor_organDonors (db : DB) (i : OrganDonorInput) (w : Int)
    (ld : Option Int) :
    ((saveOrganDonor db i w ld).2).organDonors =
      db.organDonors ++ [newOrganDonor db i w ld] := by
  cases h : i.userId <;> simp [saveOrganDonor, h]

theorem saveOrganDonor_users_none (db : DB) (i : OrganDonorInput) (w : Int)
    (ld : Option Int) (h : i.userId = none) :
    ((saveOrganDonor db i w ld).2).users = db.users := by
  simp [saveOrganDonor, h]

theorem saveOrganDonor_users_some (db : DB) (i : OrganDonorInput) (w : Int)
    (ld : Option Int) (u : Nat) (h : i.userId = some u) :
    ((saveOrganDonor db i w ld).2).users =
      pushDonation u
        (DonationEntry.organ db.nextId i.name i.phone i.organType i.conditionStatus
          db.now "pending_verification") db.users := by
  simp [saveOrganDonor, h, newOrganDonor]

theorem postMoneyDonor_fst (db : DB) (i : MoneyDonorInput) :
    (postMoneyDonor db i).1 = .created db.nextId "pending_verification" := by
  cases h : i.userId <;> simp [postMoneyDonor, h, newMoneyDonor]

theorem postMoneyDonor_moneyDonors (db : DB) (i : MoneyDonorInput) :
    ((postMoneyDonor db i).2).moneyDonors = db.moneyDonors ++ [newMoneyDonor db i] := by
  cases h : i.userId <;> simp [postMoneyDonor, h]

theorem postMoneyDonor_users_none (db : DB) (i : MoneyDonorInput)
    (h : i.userId = none) : ((postMoneyDonor db i).2).users = db.users := by
  simp [postMoneyDonor, h]

theorem postMoneyDonor_users_some (db : DB) (i : MoneyDonorInput) (u : Nat)
    (h : i.userId = some u) :
    ((postMoneyDonor db i).2).users =
      pushDonation u
        (DonationEntry.money db.nextId i.donorName i.amount i.paymentMethod
          db.now "pending_verification") db.users := by
  simp [postMoneyDonor, h, newMoneyDonor]

/-- C7: for organ-donor and money-donor submissions, the HTTP response
never depends on whether `userId` resolves; a resolving `userId`
appends exactly one `pending_verification` entry to that user's log;
a non-resolving `userId` leaves every user unchanged while the donor
record is still created. -/
theorem donationLog_bestEffort :
    (∀ (db : DB) (i : OrganDonorInput),
        (postOrganDonor db i).1 = (postOrganDonor db { i with userId := none }).1)
    ∧ (∀ (db : DB) (i : MoneyDonorInput),
        (postMoneyDonor db i).1 = (postMoneyDonor db { i with userId := none }).1)
    ∧ (∀ (db : DB) (i : OrganDonorInput) (u : Nat) (pre post : List User) (x : User),
        i.userId = some u →
        (postOrganDonor db i).1.isCreated = true →
        db.users = pre ++ x :: post →
        (∀ y ∈ pre, y.id ≠ u) → x.id = u →
        ∃ e, DonationEntry.status e = "pending_verification"
          ∧ ((postOrganDonor db i).2).users =
              pre ++ { x with donations := x.donations ++ [e] } :: post)
    ∧ (∀ (db : DB) (i : OrganDonorInput) (u : Nat),
        i.userId = some u →
        (postOrganDonor db i).1.isCreated = true →
        (∀ y ∈ db.users, y.id ≠ u) →
        ((postOrganDonor db i).2).users = db.users
        ∧ ∃ d, ((postOrganDonor db i).2).organDonors = db.organDonors ++ [d])
    ∧ (∀ (db : DB) (i : MoneyDonorInput) (u : Nat) (pre post : List User) (x : User),
        i.userId = some u →
        db.users = pre ++ x :: post →
        (∀ y ∈ pre, y.id ≠ u) → x.id = u →
        (postMoneyDonor db i).1 = .created db.nextId "pending_verification"
        ∧ ∃ e, DonationEntry.status e = "pending_verification"
          ∧ ((postMoneyDonor db i).2).users =
              pre ++ { x with donations := x.donations ++ [e] } :: post)
    ∧ (∀ (db : DB) (i : MoneyDonorInput) (u : Nat),
        i.userId = some u →
        (∀ y ∈ db.users, y.id ≠ u) →
        (postMoneyDonor db i).1 = .created db.nextId "pending_verification"
        ∧ ((postMoneyDonor db i).2).users = db.users
        ∧ ((postMoneyDonor db i).2).moneyDonors =
            db.moneyDonors ++ [newMoneyDonor db i]) := by
  refine ⟨?_, ?_, ?_, ?_, ?_, ?_⟩
  · intro db i
    unfold postOrganDonor saveOrganDonor
    repeat' split
    all_goals try rfl
    all_goals try simp [newOrganDonor]
    all_goals simp_all
    all_goals omega
  · intro db i
    simp only [postMoneyDonor, newMoneyDonor]
  · intro db i u pre post x hu hcr husers hpre hx
    rcases postOrganDonor_cases db i with ⟨hf, _⟩ | ⟨w, ld, heq⟩
    · rw [hf] at hcr; simp at hcr
    · refine ⟨DonationEntry.organ db.nextId i.name i.phone i.organType i.conditionStatus
        db.now "pending_verification", rfl, ?_⟩
      rw [heq, saveOrganDonor_users_some db i w ld u hu, husers,
        pushDonation_found u _ pre x post hpre hx]
  · intro db i u hu hcr hnone
    rcases postOrganDonor_cases db i with ⟨hf, _⟩ | ⟨w, ld, heq⟩
    · rw [hf] at hcr; simp at hcr
    · constructor
      · rw [heq, saveOrganDonor_users_some db i w ld u hu,
          pushDonation_not_found u _ db.users hnone]
      · exact ⟨newOrganDonor db i w ld, by rw [heq, saveOrganDonor_organDonors]⟩
  · intro db i u pre post x hu husers hpre hx
    refine ⟨postMoneyDonor_fst db i, DonationEntry.money db.nextId i.donorName i.amount
      i.paymentMethod db.now "pending_verification", rfl, ?_⟩
    rw [postMoneyDonor_users_some db i u hu, husers,
      pushDonation_found u _ pre x post hpre hx]
  · intro db i u hu hnone
    exact ⟨postMoneyDonor_fst db i,
      by rw [postMoneyDonor_users_some db i u hu,
        pushDonation_not_found u _ db.users hnone],
      postMoneyDonor_moneyDonors db i⟩

/-- Witness for C7: a money donation with a `userId` resolving to the
single registered user appends one pending entry to that user's log. -/
theorem donationLog_bestEffort_witness :
    (postMoneyDonor { initDB with users := [sampleUser 7] }
        (sampleMoneyDonorInput (some 7))).1 =
      .created 0 "pending_verification"
    ∧ ∃ e, DonationEntry.status e = "pending_verification"
        ∧ ((postMoneyDonor { initDB with users := [sampleUser 7] }
              (sampleMoneyDonorInput (some 7))).2).users =
            [] ++ { sampleUser 7 with
                      donations := (sampleUser 7).donations ++ [e] } :: [] := by
  have h := donationLog_bestEffort.2.2.2.2.1
    { initDB with users := [sampleUser 7] } (sampleMoneyDonorInput (some 7)) 7
    [] [] (sampleUser 7) rfl rfl (by simp) rfl
  exact h

theorem postBloodDonor_cases (db : DB) (i : BloodDonorInput) :
    (postBloodDonor db i).2 = db ∨
    ∃ a w ld, (postBloodDonor db i).2 =
      { db with bloodDonors := db.bloodDonors ++ [newBloodDonor db i a w ld]
                nextId := db.nextId + 1 } := by
  unfold postBloodDonor saveBloodDonor
  repeat' split
  all_goals first
    | exact Or.inl rfl
    | exact Or.inr ⟨_, _, _, rfl⟩

theorem saveOrganDonor_proj (db : DB) (i : OrganDonorInput) (w : Int) (ld : Option Int) :
    ((saveOrganDonor db i w ld).2).bloodDonors = db.bloodDonors
    ∧ ((saveOrganDonor db i w ld).2).bloodReceivers = db.bloodReceivers
    ∧ ((saveOrganDonor db i w ld).2).organReceivers = db.organReceivers
    ∧ ((saveOrganDonor db i w ld).2).moneyDonors = db.moneyDonors
    ∧ ((saveOrganDonor db i w ld).2).moneyReceivers = db.moneyReceivers := by
  cases h : i.userId <;> simp [saveOrganDonor, h]

theorem postMoneyDonor_proj (db : DB) (i : MoneyDonorInput) :
    ((postMoneyDonor db i).2).bloodDonors = db.bloodDonors
    ∧ ((postMoneyDonor db i).2).bloodReceivers = db.bloodReceivers
    ∧ ((postMoneyDonor db i).2).organDonors = db.organDonors
    ∧ ((postMoneyDonor db i).2).organReceivers = db.organReceivers
    ∧ ((postMoneyDonor db i).2).moneyReceivers = db.moneyReceivers := by
  cases h : i.userId <;> simp [postMoneyDonor, h]

theorem statusFlag (b : Bool) :
    ((if b then VStatus.approved else VStatus.rejected) == VStatus.approved) = b := by
  cases b <;> rfl

theorem updateDataBD_env (status : String) (now : Int) (notes : Option String)
    (x : BloodDonor) :
    (updateDataBD status now notes x).isVerified =
      ((updateDataBD status now notes x).verificationStatus == VStatus.approved) := by
  simp [updateDataBD, statusFlag]

theorem adminVerify_snd_cases (db : DB) (t : String) (recId : Nat) (status : String)
    (notes : Option String) :
    (adminVerify db t recId status notes).2 = db
    ∨ (adminVerify db t recId status notes).2 =
        { db with bloodDonors :=
            (findByIdAndUpdate (fun d => d.id) recId
              (updateDataBD status db.now notes) db.bloodDonors).2 }
    ∨ (adminVerify db t recId status notes).2 =
        { db with bloodReceivers :=
            (findByIdAndUpdate (fun d => d.id) recId
              (updateDataBR status db.now notes) db.bloodReceivers).2 }
    ∨ (adminVerify db t recId status notes).2 =
        { db with organDonors :=
            (findByIdAndUpdate (fun d => d.id) recId
              (updateDataOD status db.now notes) db.organDonors).2 }
    ∨ (adminVerify db t recId status notes).2 =
        { db with organReceivers :=
            (findByIdAndUpdate (fun d => d.id) recId
              (updateDataOR status db.now notes) db.organReceivers).2 }
    ∨ (adminVerify db t recId status notes).2 =
        { db with moneyDonors :=
            (findByIdAndUpdate (fun d => d.id) recId
              (updateDataMD status db.now notes) db.moneyDonors).2 }
    ∨ (adminVerify db t recId status notes).2 =
        { db with moneyReceivers :=
            (findByIdAndUpdate (fun d => d.id) recId
              (updateDataMR status db.now notes) db.moneyReceivers).2 } := by
  simp only [adminVerify]
  repeat' split
  all_goals first
    | exact Or.inl rfl
    | exact Or.inr (Or.inl rfl)
    | exact Or.inr (Or.inr (Or.inl rfl))
    | exact Or.inr (Or.inr (Or.inr (Or.inl rfl)))
    | exact Or.inr (Or.inr (Or.inr (Or.inr (Or.inl rfl))))
    | exact Or.inr (Or.inr (Or.inr (Or.inr (Or.inr (Or.inl rfl)))))
    | exact Or.inr (Or.inr (Or.inr (Or.inr (Or.inr (Or.inr rfl)))))


theorem updateDataBR_env (status : String) (now : Int) (notes : Option String)
    (x : BloodReceiver) :
    (updateDataBR status now notes x).isVerified =
      ((updateDataBR status now notes x).verificationStatus == VStatus.approved) := by
  simp [updateDataBR, statusFlag]

theorem updateDataOD_env (status : String) (now : Int) (notes : Option String)
    (x : OrganDonor) :
    (updateDataOD status now notes x).isVerified =
      ((updateDataOD status now notes x).verificationStatus == VStatus.approved) := by
  simp [updateDataOD, statusFlag]

theorem updateDataOR_env (status : String) (now : Int) (notes : Option String)
    (x : OrganReceiver) :
    (updateDataOR status now notes x).isVerified =
      ((updateDataOR status now notes x).verificationStatus == VStatus.approved) := by
  simp [updateDataOR, statusFlag]

theorem updateDataMD_env (status : String) (now : Int) (notes : Option String)
    (x : MoneyDonor) :
    (updateDataMD status now notes x).isVerified =
      ((updateDataMD status now notes x).verificationStatus == VStatus.approved) := by
  simp [updateDataMD, statusFlag]

theorem updateDataMR_env (status : String) (now : Int) (notes : Option String)
    (x : MoneyReceiver) :
    (updateDataMR status now notes x).isVerified =
      ((updateDataMR status now notes x).verificationStatus == VStatus.approved) := by
  simp [updateDataMR, statusFlag]

theorem envInv_step (db : DB) (op : Op) (h : db.envInv) : (step db op).envInv := by
  obtain ⟨h1, h2, h3, h4, h5, h6⟩ := h
  cases op with
  | postBloodDonor i =>
    show ((postBloodDonor db i).2).envInv
    rcases postBloodDonor_cases db i with heq | ⟨a, w, ld, heq⟩
    · rw [heq]; exact ⟨h1, h2, h3, h4, h5, h6⟩
    · rw [heq]
      refine ⟨?_, h2, h3, h4, h5, h6⟩
      intro r hr
      rcases List.mem_append.mp hr with hr | hr
      · exact h1 r hr
      · rw [List.mem_singleton] at hr
        rw [hr]
        rfl
  | postBloodReceiver i =>
    show ((postBloodReceiver db i).2).envInv
    refine ⟨h1, ?_, h3, h4, h5, h6⟩
    intro r hr
    rcases List.mem_append.mp hr with hr | hr
    · exact h2 r hr
    · rw [List.mem_singleton] at hr
      rw [hr]
      rfl
  | postOrganDonor i =>
    show ((postOrganDonor db i).2).envInv
    rcases postOrganDonor_cases db i with ⟨_, heq⟩ | ⟨w, ld, heq⟩
    · rw [heq]; exact ⟨h1, h2, h3, h4, h5, h6⟩
    · rw [heq]
      obtain ⟨p1, p2, p4, p5, p6⟩ := saveOrganDonor_proj db i w ld
      refine ⟨?_, ?_, ?_, ?_, ?_, ?_⟩
      · rw [p1]; exact h1
      · rw [p2]; exact h2
      · rw [saveOrganDonor_organDonors]
        intro r hr
        rcases List.mem_append.mp hr with hr | hr
        · exact h3 r hr
        · rw [List.mem_singleton] at hr
          rw [hr]
          rfl
      · rw [p4]; exact h4
      · rw [p5]; exact h5
      · rw [p6]; exact h6
  | postOrganReceiver i =>
    show ((postOrganReceiver db i).2).envInv
    refine ⟨h1, h2, h3, ?_, h5, h6⟩
    intro r hr
    rcases List.mem_append.mp hr with hr | hr
    · exact h4 r hr
    · rw [List.mem_singleton] at hr
      rw [hr]
      rfl
  | postMoneyDonor i =>
    show ((postMoneyDonor db i).2).envInv
    obtain ⟨p1, p2, p3, p4, p6⟩ := postMoneyDonor_proj db i
    refine ⟨?_, ?_, ?_, ?_, ?_, ?_⟩
    · rw [p1]; exact h1
    · rw [p2]; exact h2
    · rw [p3]; exact h3
    · rw [p4]; exact h4
    · rw [postMoneyDonor_moneyDonors]
      intro r hr
      rcases List.mem_append.mp hr with hr | hr
      · exact h5 r hr
      · rw [List.mem_singleton] at hr
        rw [hr]
        rfl
    · rw [p6]; exact h6
  | postMoneyReceiver i =>
    show ((postMoneyReceiver db i).2).envInv
    refine ⟨h1, h2, h3, h4, h5, ?_⟩
    intro r hr
    rcases List.mem_append.mp hr with hr | hr
    · exact h6 r hr
    · rw [List.mem_singleton] at hr
      rw [hr]
      rfl
  | adminVerify t recId status notes =>
    show ((adminVerify db t recId status notes).2).envInv
    rcases adminVerify_snd_cases db t recId status notes with
      heq | heq | heq | heq | heq | heq | heq
    all_goals rw [heq]
    · exact ⟨h1, h2, h3, h4, h5, h6⟩
    · exact ⟨findByIdAndUpdate_snd_forall _ recId _ _
        (updateDataBD_env status db.now notes) db.bloodDonors h1, h2, h3, h4, h5, h6⟩
    · exact ⟨h1, findByIdAndUpdate_snd_forall _ recId _ _
        (updateDataBR_env status db.now notes) db.bloodReceivers h2, h3, h4, h5, h6⟩
    · exact ⟨h1, h2, findByIdAndUpdate_snd_forall _ recId _ _
        (updateDataOD_env status db.now notes) db.organDonors h3, h4, h5, h6⟩
    · exact ⟨h1, h2, h3, findByIdAndUpdate_snd_forall _ recId _ _
        (updateDataOR_env status db.now notes) db.organReceivers h4, h5, h6⟩
    · exact ⟨h1, h2, h3, h4, findByIdAndUpdate_snd_forall _ recId _ _
        (updateDataMD_env status db.now notes) db.moneyDonors h5, h6⟩
    · exact ⟨h1, h2, h3, h4, h5, findByIdAndUpdate_snd_forall _ recId _ _
        (updateDataMR_env status db.now notes) db.moneyReceivers h6⟩
  | tick d =>
    exact ⟨h1, h2, h3, h4, h5, h6⟩

theorem envInv_run (ops : List Op) (db : DB) (h : db.envInv) : (run db ops).envInv := by
  induction ops generalizing db with
  | nil => exact h
  | cons op ops ih => exact ih (step db op) (envInv_step db op h)

/-- C3: for every record of the six donor/receiver collections and
after every sequence of operations (submissions, admin verifications,
clock advances) from the empty store, `isVerified` equals
`(verificationStatus == approved)`: false at creation with status
pending, and kept consistent by every verify call. -/
theorem isVerified_matches_status :
    initDB.envInv ∧ ∀ ops : List Op, (run initDB ops).envInv := by
  have hinit : initDB.envInv := by
    refine ⟨?_, ?_, ?_, ?_, ?_, ?_⟩ <;> intro r hr <;> simp [initDB] at hr
  exact ⟨hinit, fun ops => envInv_run ops initDB hinit⟩

/-- C2: admin verify rejects an unrecognised kind or a status other
than approved/rejected with BadRequest; an absent id gives NotFound;
otherwise the record's verificationStatus becomes the given status,
verifiedAt is set to the current time, isVerified becomes
(status == approved), adminNotes becomes the notes or the empty
string, the updated record is returned, and getVerificationDetail
afterwards shows it. -/
theorem adminVerify_spec :
    (∀ (db : DB) (t : String) (recId : Nat) (status : String) (notes : Option String),
        (parseKind t = none ∨ (status ≠ "approved" ∧ status ≠ "rejected")) →
        (∃ msg, (adminVerify db t recId status notes).1 = .badRequest msg)
        ∧ (adminVerify db t recId status notes).2 = db)
    ∧ (∀ (db : DB) (t : String) (k : Kind) (recId : Nat) (status : String)
        (notes : Option String),
        parseKind t = some k →
        (status = "approved" ∨ status = "rejected") →
        findRec db k recId = none →
        (adminVerify db t recId status notes).1 = .notFound "Record not found"
        ∧ (adminVerify db t recId status notes).2 = db)
    ∧ (∀ (db : DB) (t : String) (k : Kind) (recId : Nat) (status : String)
        (notes : Option String) (r : AnyRecord),
        parseKind t = some k →
        (status = "approved" ∨ status = "rejected") →
        findRec db k recId = some r →
        ∃ r', (adminVerify db t recId status notes).1 =
            .ok ("Verification " ++ status ++ " successfully") r'
          ∧ r'.env = { isVerified := status == "approved"
                       verificationStatus :=
                         if status == "approved" then .approved else .rejected
                       adminNotes := notes.getD ""
                       verifiedAt := some db.now }
          ∧ getVerificationDetail (adminVerify db t recId status notes).2 t recId =
              .ok r') := by
  refine ⟨?_, ?_, ?_⟩
  · intro db t recId status notes hbad
    cases hk : parseKind t with
    | none =>
      exact ⟨⟨"Invalid verification type", by simp [adminVerify, hk]⟩,
        by simp [adminVerify, hk]⟩
    | some k =>
      rcases hbad with h | ⟨h1, h2⟩
      · rw [hk] at h; cases h
      · have hs : (status == "approved" || status == "rejected") = false := by
          simp [h1, h2]
        exact ⟨⟨"Invalid status", by simp [adminVerify, hk, hs]⟩,
          by simp [adminVerify, hk, hs]⟩
  · intro db t k recId status notes hk hst hnone
    have hs : (status == "approved" || status == "rejected") = true := by
      rcases hst with h | h <;> simp [h]
    cases k with
    | bloodDonor =>
      have hfb : findById (fun r => r.id) recId db.bloodDonors = none := by
        simpa [findRec] using hnone
      have hfst := findByIdAndUpdate_fst (fun d => d.id) recId
        (updateDataBD status db.now notes) db.bloodDonors
      rw [hfb] at hfst
      constructor <;> simp [adminVerify, hk, hs, hfst]
    | bloodReceiver =>
      have hfb : findById (fun r => r.id) recId db.bloodReceivers = none := by
        simpa [findRec] using hnone
      have hfst := findByIdAndUpdate_fst (fun d => d.id) recId
        (updateDataBR status db.now notes) db.bloodReceivers
      rw [hfb] at hfst
      constructor <;> simp [adminVerify, hk, hs, hfst]
    | organDonor =>
      have hfb : findById (fun r => r.id) recId db.organDonors = none := by
        simpa [findRec] using hnone
      have hfst := findByIdAndUpdate_fst (fun d => d.id) recId
        (updateDataOD status db.now notes) db.organDonors
      rw [hfb] at hfst
      constructor <;> simp [adminVerify, hk, hs, hfst]
    | organReceiver =>
      have hfb : findById (fun r => r.id) recId db.organReceivers = none := by
        simpa [findRec] using hnone
      have hfst := findByIdAndUpdate_fst (fun d => d.id) recId
        (updateDataOR status db.now notes) db.organReceivers
      rw [hfb] at hfst
      constructor <;> simp [adminVerify, hk, hs, hfst]
    | moneyDonor =>
      have hfb : findById (fun r => r.id) recId db.moneyDonors = none := by
        simpa [findRec] using hnone
      have hfst := findByIdAndUpdate_fst (fun d => d.id) recId
        (updateDataMD status db.now notes) db.moneyDonors
      rw [hfb] at hfst
      constructor <;> simp [adminVerify, hk, hs, hfst]
    | moneyReceiver =>
      have hfb : findById (fun r => r.id) recId db.moneyReceivers = none := by
        simpa [findRec] using hnone
      have hfst := findByIdAndUpdate_fst (fun d => d.id) recId
        (updateDataMR status db.now notes) db.moneyReceivers
      rw [hfb] at hfst
      constructor <;> simp [adminVerify, hk, hs, hfst]
  · intro db t k recId status notes r hk hst hsome
    have hs : (status == "approved" || status == "rejected") = true := by
      rcases hst with h | h <;> simp [h]
    cases k with
    | bloodDonor =>
      simp only [findRec] at hsome
      obtain ⟨x, hx, hxr⟩ := Option.map_eq_some'.mp hsome
      have hfst := findByIdAndUpdate_fst (fun d => d.id) recId
        (updateDataBD status db.now notes) db.bloodDonors
      rw [hx] at hfst
      have hsnd := findById_findByIdAndUpdate (fun d : BloodDonor => d.id) recId
        (updateDataBD status db.now notes) (fun y => rfl) db.bloodDonors x hx
      refine ⟨.bloodDonor (updateDataBD status db.now notes x), ?_, ?_, ?_⟩
      · simp [adminVerify, hk, hs, hfst]
      · simp [AnyRecord.env, updateDataBD]
      · simp [adminVerify, hk, hs, hfst, getVerificationDetail, findRec, hsnd]
    | bloodReceiver =>
      simp only [findRec] at hsome
      obtain ⟨x, hx, hxr⟩ := Option.map_eq_some'.mp hsome
      have hfst := findByIdAndUpdate_fst (fun d => d.id) recId
        (updateDataBR status db.now notes) db.bloodReceivers
      rw [hx] at hfst
      have hsnd := findById_findByIdAndUpdate (fun d : BloodReceiver => d.id) recId
        (updateDataBR status db.now notes) (fun y => rfl) db.bloodReceivers x hx
      refine ⟨.bloodReceiver (updateDataBR status db.now notes x), ?_, ?_, ?_⟩
      · simp [adminVerify, hk, hs, hfst]
      · simp [AnyRecord.env, updateDataBR]
      · simp [adminVerify, hk, hs, hfst, getVerificationDetail, findRec, hsnd]
    | organDonor =>
      simp only [findRec] at hsome
      obtain ⟨x, hx, hxr⟩ := Option.map_eq_some'.mp hsome
      have hfst := findByIdAndUpdate_fst (fun d => d.id) recId
        (updateDataOD status db.now notes) db.organDonors
      rw [hx] at hfst
      have hsnd := findById_findByIdAndUpdate (fun d : OrganDonor => d.id) recId
        (updateDataOD status db.now notes) (fun y => rfl) db.organDonors x hx
      refine ⟨.organDonor (updateDataOD status db.now notes x), ?_, ?_, ?_⟩
      · simp [adminVerify, hk, hs, hfst]
      · simp [AnyRecord.env, updateDataOD]
      · simp [adminVerify, hk, hs, hfst, getVerificationDetail, findRec, hsnd]
    | organReceiver =>
      simp only [findRec] at hsome
      obtain ⟨x, hx, hxr⟩ := Option.map_eq_some'.mp hsome
      have hfst := findByIdAndUpdate_fst (fun d => d.id) recId
        (updateDataOR status db.now notes) db.organReceivers
      rw [hx] at hfst
      have hsnd := findById_findByIdAndUpdate (fun d : OrganReceiver => d.id) recId
        (updateDataOR status db.now notes) (fun y => rfl) db.organReceivers x hx
      refine ⟨.organReceiver (updateDataOR status db.now notes x), ?_, ?_, ?_⟩
      · simp [adminVerify, hk, hs, hfst]
      · simp [AnyRecord.env, updateDataOR]
      · simp [adminVerify, hk, hs, hfst, getVerificationDetail, findRec, hsnd]
    | moneyDonor =>
      simp only [findRec] at hsome
      obtain ⟨x, hx, hxr⟩ := Option.map_eq_some'.mp hsome
      have hfst := findByIdAndUpdate_fst (fun d => d.id) recId
        (updateDataMD status db.now notes) db.moneyDonors
      rw [hx] at hfst
      have hsnd := findById_findByIdAndUpdate (fun d : MoneyDonor => d.id) recId
        (updateDataMD status db.now notes) (fun y => rfl) db.moneyDonors x hx
      refine ⟨.moneyDonor (updateDataMD status db.now notes x), ?_, ?_, ?_⟩
      · simp [adminVerify, hk, hs, hfst]
      · simp [AnyRecord.env, updateDataMD]
      · simp [adminVerify, hk, hs, hfst, getVerificationDetail, findRec, hsnd]
    | moneyReceiver =>
      simp only [findRec] at hsome
      obtain ⟨x, hx, hxr⟩ := Option.map_eq_some'.mp hsome
      have hfst := findByIdAndUpdate_fst (fun d => d.id) recId
        (updateDataMR status db.now notes) db.moneyReceivers
      rw [hx] at hfst
      have hsnd := findById_findByIdAndUpdate (fun d : MoneyReceiver => d.id) recId
        (updateDataMR status db.now notes) (fun y => rfl) db.moneyReceivers x hx
      refine ⟨.moneyReceiver (updateDataMR status db.now notes x), ?_, ?_, ?_⟩
      · simp [adminVerify, hk, hs, hfst]
      · simp [AnyRecord.env, updateDataMR]
      · simp [adminVerify, hk, hs, hfst, getVerificationDetail, findRec, hsnd]

/-- Witness for C2: approving the single money-donor record of a
one-record store through the theorem itself. -/
theorem adminVerify_spec_witness :
    ∃ r', (adminVerify (step initDB (Op.postMoneyDonor (sampleMoneyDonorInput none)))
          "money-donor" 0 "approved" none).1 =
        .ok ("Verification " ++ "approved" ++ " successfully") r'
      ∧ r'.env = { isVerified := ("approved" == "approved")
                   verificationStatus :=
                     if ("approved" == "approved") then .approved else .rejected
                   adminNotes := (none : Option String).getD ""
                   verifiedAt := some (step initDB
                     (Op.postMoneyDonor (sampleMoneyDonorInput none))).now }
      ∧ getVerificationDetail
          (adminVerify (step initDB (Op.postMoneyDonor (sampleMoneyDonorInput none)))
            "money-donor" 0 "approved" none).2 "money-donor" 0 = .ok r' :=
  adminVerify_spec.2.2 _ "money-donor" .moneyDonor 0 "approved" none
    (.moneyDonor (newMoneyDonor initDB (sampleMoneyDonorInput none)))
    (by decide) (Or.inl rfl) (by decide)

theorem bloodMatching_spec (db : DB) (phone : String) (hvp : validPhone phone = true) :
    (db.bloodReceivers.filter (fun r => r.phone == phone) = [] →
        bloodMatchingDonors db phone =
          .notFound "Receiver registration not found. Please register first.")
    ∧ (db.bloodReceivers.filter (fun r => r.phone == phone) ≠ [] →
       (∀ r ∈ db.bloodReceivers, r.phone = phone → r.verificationStatus ≠ .approved) →
       ∃ latest, latest ∈ db.bloodReceivers ∧ latest.phone = phone
         ∧ (∀ r ∈ db.bloodReceivers, r.phone = phone →
              r.submittedAt ≤ latest.submittedAt)
         ∧ bloodMatchingDonors db phone =
             .forbidden latest.verificationStatus
               "Receiver has not been approved yet. Please wait for admin verification.")
    ∧ (∀ r0 ∈ db.bloodReceivers, r0.phone = phone → r0.verificationStatus = .approved →
       ∃ rec donors, rec ∈ db.bloodReceivers ∧ rec.phone = phone
         ∧ rec.verificationStatus = .approved
         ∧ (∀ r ∈ db.bloodReceivers, r.phone = phone →
              r.verificationStatus = .approved →
              sortKeyLe (r.verifiedAt, r.submittedAt) (rec.verifiedAt, rec.submittedAt) = true)
         ∧ bloodMatchingDonors db phone =
             .ok { name := rec.name, phone := rec.phone, bloodNeed := rec.bloodNeed
                   location := rec.location, latitude := rec.latitude
                   longitude := rec.longitude } donors
         ∧ (∀ d : BloodDonor, d ∈ donors ↔
              d ∈ db.bloodDonors ∧ d.verificationStatus = .approved
                ∧ d.bloodGroup = rec.bloodNeed)) := by
  have hphone : (!validPhone phone) = false := by simp [hvp]
  have le2refl : ∀ a : BloodReceiver,
      (sortKeyLe (a.verifiedAt, a.submittedAt) (a.verifiedAt, a.submittedAt)) = true :=
    fun a => sortKeyLe_refl _
  have le2tot : ∀ a b : BloodReceiver,
      sortKeyLe (a.verifiedAt, a.submittedAt) (b.verifiedAt, b.submittedAt) = true
      ∨ sortKeyLe (b.verifiedAt, b.submittedAt) (a.verifiedAt, a.submittedAt) = true :=
    fun a b => sortKeyLe_total _ _
  have le2trans : ∀ a b c : BloodReceiver,
      sortKeyLe (a.verifiedAt, a.submittedAt) (b.verifiedAt, b.submittedAt) = true →
      sortKeyLe (b.verifiedAt, b.submittedAt) (c.verifiedAt, c.submittedAt) = true →
      sortKeyLe (a.verifiedAt, a.submittedAt) (c.verifiedAt, c.submittedAt) = true :=
    fun a b c h1 h2 => sortKeyLe_trans _ _ _ h1 h2
  refine ⟨?_, ?_, ?_⟩
  · intro h
    have happr : db.bloodReceivers.filter
        (fun r => r.phone == phone && r.verificationStatus == .approved) = [] := by
      rw [List.filter_eq_nil_iff] at h ⊢
      intro a ha hc
      rw [Bool.and_eq_true] at hc
      exact h a ha hc.1
    simp [bloodMatchingDonors, hphone, happr, h, pickMax]
  · intro h hna
    have happr : db.bloodReceivers.filter
        (fun r => r.phone == phone && r.verificationStatus == .approved) = [] := by
      rw [List.filter_eq_nil_iff]
      intro a ha hc
      rw [Bool.and_eq_true, beq_iff_eq, beq_iff_eq] at hc
      exact hna a ha hc.1 hc.2
    obtain ⟨latest, hpick⟩ := pickMax_exists_of_ne_nil
      (fun a b : BloodReceiver => decide (a.submittedAt ≤ b.submittedAt))
      (db.bloodReceivers.filter (fun r => r.phone == phone)) h
    have hmem := List.mem_filter.mp (pickMax_mem _ _ _ hpick)
    have hmax := pickMax_le
      (fun a b : BloodReceiver => decide (a.submittedAt ≤ b.submittedAt))
      (fun a => by simp)
      (fun a b => by
        by_cases hab : a.submittedAt ≤ b.submittedAt
        · exact Or.inl (by simpa)
        · refine Or.inr (by simp; omega))
      (fun a b c h1 h2 => by simp at *; omega)
      _ _ hpick
    refine ⟨latest, hmem.1, by simpa using hmem.2, ?_, ?_⟩
    · intro r hr hrphone
      have hrf : r ∈ db.bloodReceivers.filter (fun r => r.phone == phone) :=
        List.mem_filter.mpr ⟨hr, by simp [hrphone]⟩
      simpa using hmax r hrf
    · simp [bloodMatchingDonors, hphone, happr, hpick, pickMax]
  · intro r0 hr0 hr0p hr0a
    have hne : db.bloodReceivers.filter
        (fun r => r.phone == phone && r.verificationStatus == .approved) ≠ [] := by
      intro hnil
      rw [List.filter_eq_nil_iff] at hnil
      exact hnil r0 hr0 (by simp [hr0p, hr0a])
    obtain ⟨rec, hpick⟩ := pickMax_exists_of_ne_nil
      (fun a b : BloodReceiver =>
        sortKeyLe (a.verifiedAt, a.submittedAt) (b.verifiedAt, b.submittedAt))
      _ hne
    have hmem := List.mem_filter.mp (pickMax_mem _ _ _ hpick)
    have hmax := pickMax_le
      (fun a b : BloodReceiver =>
        sortKeyLe (a.verifiedAt, a.submittedAt) (b.verifiedAt, b.submittedAt))
      le2refl le2tot le2trans _ _ hpick
    obtain ⟨hrecmem, hcond⟩ := hmem
    rw [Bool.and_eq_true] at hcond
    refine ⟨rec,
      db.bloodDonors.filter
        (fun d => d.bloodGroup == rec.bloodNeed && d.verificationStatus == .approved),
      hrecmem, by simpa using hcond.1, by simpa using hcond.2, ?_, ?_, ?_⟩
    · intro r hr hrp hra
      exact hmax r (List.mem_filter.mpr ⟨hr, by simp [hrp, hra]⟩)
    · simp [bloodMatchingDonors, hphone, hpick]
    · intro d
      constructor
      · intro hd
        obtain ⟨hdl, hc⟩ := List.mem_filter.mp hd
        rw [Bool.and_eq_true] at hc
        exact ⟨hdl, by simpa using hc.2, by simpa using hc.1⟩
      · rintro ⟨hdl, hst, hbg⟩
        exact List.mem_filter.mpr ⟨hdl, by simp [hst, hbg]⟩

theorem organMatching_spec (db : DB) (phone : String) (hvp : validPhone phone = true) :
    (db.organReceivers.filter (fun r => r.phone == phone) = [] →
        organMatchingDonors db phone =
          .notFound "Receiver registration not found. Please register first.")
    ∧ (db.organReceivers.filter (fun r => r.phone == phone) ≠ [] →
       (∀ r ∈ db.organReceivers, r.phone = phone → r.verificationStatus ≠ .approved) →
       ∃ latest, latest ∈ db.organReceivers ∧ latest.phone = phone
         ∧ (∀ r ∈ db.organReceivers, r.phone = phone →
              r.submittedAt ≤ latest.submittedAt)
         ∧ organMatchingDonors db phone =
             .forbidden latest.verificationStatus
               "Receiver has not been approved yet. Please wait for admin verification.")
    ∧ (∀ r0 ∈ db.organReceivers, r0.phone = phone → r0.verificationStatus = .approved →
       ∃ rec donors, rec ∈ db.organReceivers ∧ rec.phone = phone
         ∧ rec.verificationStatus = .approved
         ∧ (∀ r ∈ db.organReceivers, r.phone = phone →
              r.verificationStatus = .approved →
              sortKeyLe (r.verifiedAt, r.submittedAt) (rec.verifiedAt, rec.submittedAt) = true)
         ∧ organMatchingDonors db phone =
             .ok { name := rec.name, phone := rec.phone, organNeed := rec.organNeed
                   location := rec.location, latitude := rec.latitude
                   longitude := rec.longitude
                   medicalCondition := rec.medicalCondition } donors
         ∧ (∀ d : OrganDonor, d ∈ donors ↔
              d ∈ db.organDonors ∧ d.verificationStatus = .approved
                ∧ d.organType = rec.organNeed)) := by
  have hphone : (!validPhone phone) = false := by simp [hvp]
  have le2refl : ∀ a : OrganReceiver,
      (sortKeyLe (a.verifiedAt, a.submittedAt) (a.verifiedAt, a.submittedAt)) = true :=
    fun a => sortKeyLe_refl _
  have le2tot : ∀ a b : OrganReceiver,
      sortKeyLe (a.verifiedAt, a.submittedAt) (b.verifiedAt, b.submittedAt) = true
      ∨ sortKeyLe (b.verifiedAt, b.submittedAt) (a.verifiedAt, a.submittedAt) = true :=
    fun a b => sortKeyLe_total _ _
  have le2trans : ∀ a b c : OrganReceiver,
      sortKeyLe (a.verifiedAt, a.submittedAt) (b.verifiedAt, b.submittedAt) = true →
      sortKeyLe (b.verifiedAt, b.submittedAt) (c.verifiedAt, c.submittedAt) = true →
      sortKeyLe (a.verifiedAt, a.submittedAt) (c.verifiedAt, c.submittedAt) = true :=
    fun a b c h1 h2 => sortKeyLe_trans _ _ _ h1 h2
  refine ⟨?_, ?_, ?_⟩
  · intro h
    have happr : db.organReceivers.filter
        (fun r => r.phone == phone && r.verificationStatus == .approved) = [] := by
      rw [List.filter_eq_nil_iff] at h ⊢
      intro a ha hc
      rw [Bool.and_eq_true] at hc
      exact h a ha hc.1
    simp [organMatchingDonors, hphone, happr, h, pickMax]
  · intro h hna
    have happr : db.organReceivers.filter
        (fun r => r.phone == phone && r.verificationStatus == .approved) = [] := by
      rw [List.filter_eq_nil_iff]
      intro a ha hc
      rw [Bool.and_eq_true, beq_iff_eq, beq_iff_eq] at hc
      exact hna a ha hc.1 hc.2
    obtain ⟨latest, hpick⟩ := pickMax_exists_of_ne_nil
      (fun a b : OrganReceiver => decide (a.submittedAt ≤ b.submittedAt))
      (db.organReceivers.filter (fun r => r.phone == phone)) h
    have hmem := List.mem_filter.mp (pickMax_mem _ _ _ hpick)
    have hmax := pickMax_le
      (fun a b : OrganReceiver => decide (a.submittedAt ≤ b.submittedAt))
      (fun a => by simp)
      (fun a b => by
        by_cases hab : a.submittedAt ≤ b.submittedAt
        · exact Or.inl (by simpa)
        · refine Or.inr (by simp; omega))
      (fun a b c h1 h2 => by simp at *; omega)
      _ _ hpick
    refine ⟨latest, hmem.1, by simpa using hmem.2, ?_, ?_⟩
    · intro r hr hrphone
      have hrf : r ∈ db.organReceivers.filter (fun r => r.phone == phone) :=
        List.mem_filter.mpr ⟨hr, by simp [hrphone]⟩
      simpa using hmax r hrf
    · simp [organMatchingDonors, hphone, happr, hpick, pickMax]
  · intro r0 hr0 hr0p hr0a
    have hne : db.organReceivers.filter
        (fun r => r.phone == phone && r.verificationStatus == .approved) ≠ [] := by
      intro hnil
      rw [List.filter_eq_nil_iff] at hnil
      exact hnil r0 hr0 (by simp [hr0p, hr0a])
    obtain ⟨rec, hpick⟩ := pickMax_exists_of_ne_nil
      (fun a b : OrganReceiver =>
        sortKeyLe (a.verifiedAt, a.submittedAt) (b.verifiedAt, b.submittedAt))
      _ hne
    have hmem := List.mem_filter.mp (pickMax_mem _ _ _ hpick)
    have hmax := pickMax_le
      (fun a b : OrganReceiver =>
        sortKeyLe (a.verifiedAt, a.submittedAt) (b.verifiedAt, b.submittedAt))
      le2refl le2tot le2trans _ _ hpick
    obtain ⟨hrecmem, hcond⟩ := hmem
    rw [Bool.and_eq_true] at hcond
    refine ⟨rec,
      db.organDonors.filter
        (fun d => d.organType == rec.organNeed && d.verificationStatus == .approved),
      hrecmem, by simpa using hcond.1, by simpa using hcond.2, ?_, ?_, ?_⟩
    · intro r hr hrp hra
      exact hmax r (List.mem_filter.mpr ⟨hr, by simp [hrp, hra]⟩)
    · simp [organMatchingDonors, hphone, hpick]
    · intro d
      constructor
      · intro hd
        obtain ⟨hdl, hc⟩ := List.mem_filter.mp hd
        rw [Bool.and_eq_true] at hc
        exact ⟨hdl, by simpa using hc.2, by simpa using hc.1⟩
      · rintro ⟨hdl, hst, hbg⟩
        exact List.mem_filter.mpr ⟨hdl, by simp [hst, hbg]⟩

/-- C1: for every matching-donors query with a valid ten-digit phone:
no receiver record for the phone gives NotFound; records with none
approved give Forbidden carrying the status of the most recently
submitted record; otherwise the approved receiver maximal under
(verifiedAt, submittedAt) is summarised without verification metadata
and returned together with exactly the approved donors whose resource
attribute (blood group, or organ type) equals the receiver's need. -/
theorem matchingDonors_spec :
    (∀ (db : DB) (phone : String), validPhone phone = true →
      (db.bloodReceivers.filter (fun r => r.phone == phone) = [] →
          bloodMatchingDonors db phone =
            .notFound "Receiver registration not found. Please register first.")
      ∧ (db.bloodReceivers.filter (fun r => r.phone == phone) ≠ [] →
         (∀ r ∈ db.bloodReceivers, r.phone = phone → r.verificationStatus ≠ .approved) →
         ∃ latest, latest ∈ db.bloodReceivers ∧ latest.phone = phone
           ∧ (∀ r ∈ db.bloodReceivers, r.phone = phone →
                r.submittedAt ≤ latest.submittedAt)
           ∧ bloodMatchingDonors db phone =
               .forbidden latest.verificationStatus
                 "Receiver has not been approved yet. Please wait for admin verification.")
      ∧ (∀ r0 ∈ db.bloodReceivers, r0.phone = phone → r0.verificationStatus = .approved →
         ∃ rec donors, rec ∈ db.bloodReceivers ∧ rec.phone = phone
           ∧ rec.verificationStatus = .approved
           ∧ (∀ r ∈ db.bloodReceivers, r.phone = phone →
                r.verificationStatus = .approved →
                sortKeyLe (r.verifiedAt, r.submittedAt) (rec.verifiedAt, rec.submittedAt) = true)
           ∧ bloodMatchingDonors db phone =
               .ok { name := rec.name, phone := rec.phone, bloodNeed := rec.bloodNeed
                     location := rec.location, latitude := rec.latitude
                     longitude := rec.longitude } donors
           ∧ (∀ d : BloodDonor, d ∈ donors ↔
                d ∈ db.bloodDonors ∧ d.verificationStatus = .approved
                  ∧ d.bloodGroup = rec.bloodNeed)))
    ∧ (∀ (db : DB) (phone : String), validPhone phone = true →
      (db.organReceivers.filter (fun r => r.phone == phone) = [] →
          organMatchingDonors db phone =
            .notFound "Receiver registration not found. Please register first.")
      ∧ (db.organReceivers.filter (fun r => r.phone == phone) ≠ [] →
         (∀ r ∈ db.organReceivers, r.phone = phone → r.verificationStatus ≠ .approved) →
         ∃ latest, latest ∈ db.organReceivers ∧ latest.phone = phone
           ∧ (∀ r ∈ db.organReceivers, r.phone = phone →
                r.submittedAt ≤ latest.submittedAt)
           ∧ organMatchingDonors db phone =
               .forbidden latest.verificationStatus
                 "Receiver has not been approved yet. Please wait for admin verification.")
      ∧ (∀ r0 ∈ db.organReceivers, r0.phone = phone → r0.verificationStatus = .approved →
         ∃ rec donors, rec ∈ db.organReceivers ∧ rec.phone = phone
           ∧ rec.verificationStatus = .approved
           ∧ (∀ r ∈ db.organReceivers, r.phone = phone →
                r.verificationStatus = .approved →
                sortKeyLe (r.verifiedAt, r.submittedAt) (rec.verifiedAt, rec.submittedAt) = true)
           ∧ organMatchingDonors db phone =
               .ok { name := rec.name, phone := rec.phone, organNeed := rec.organNeed
                     location := rec.location, latitude := rec.latitude
                     longitude := rec.longitude
                     medicalCondition := rec.medicalCondition } donors
           ∧ (∀ d : OrganDonor, d ∈ donors ↔
                d ∈ db.organDonors ∧ d.verificationStatus = .approved
                  ∧ d.organType = rec.organNeed))) :=
  ⟨fun db phone h => bloodMatching_spec db phone h,
   fun db phone h => organMatching_spec db phone h⟩

/-- Witness for C1: an empty store answers NotFound, through the
theorem itself. -/
theorem matchingDonors_spec_witness :
    bloodMatchingDonors initDB "1234567890" =
      .notFound "Receiver registration not found. Please register first." :=
  (matchingDonors_spec.1 initDB "1234567890" (by decide)).1 (by decide)

theorem findById_append_none {α : Type} (getId : α → Nat) (recId : Nat)
    (l₁ l₂ : List α) (h : findById getId recId l₁ = none) :
    findById getId recId (l₁ ++ l₂) = findById getId recId l₂ := by
  induction l₁ with
  | nil => rfl
  | cons a as ih =>
    simp only [findById, List.find?] at h ⊢
    cases ha : getId a == recId with
    | true => rw [ha] at h; simp at h
    | false =>
      rw [ha] at h
      exact ih h

theorem findById_append_cases {α : Type} (getId : α → Nat) (recId : Nat)
    (l : List α) (d : α) :
    findById getId recId (l ++ [d]) = findById getId recId l
    ∨ (findById getId recId l = none ∧ findById getId recId (l ++ [d]) = some d) := by
  cases h : findById getId recId l with
  | some x =>
    rw [findById_append_left getId recId l [d] x h, ← h]
    exact Or.inl rfl
  | none =>
    have happ := findById_append_none getId recId l [d] h
    by_cases hd : (getId d == recId) = true
    · exact Or.inr ⟨rfl, by rw [happ]; simp [findById, List.find?, hd]⟩
    · left
      rw [happ]
      simp only [findById, List.find?] at *
      rw [Bool.not_eq_true] at hd
      rw [hd]

theorem statusOf_tick (db : DB) (d : Nat) (k : Kind) (recId : Nat) :
    statusOf { db with now := db.now + d } k recId = statusOf db k recId := by
  cases k <;> rfl


theorem postBloodDonor_statusOf (db : DB) (i : BloodDonorInput) (k : Kind) (recId : Nat) :
    statusOf ((postBloodDonor db i).2) k recId = statusOf db k recId
    ∨ (statusOf db k recId = none
       ∧ statusOf ((postBloodDonor db i).2) k recId = some .pending) := by
  rcases postBloodDonor_cases db i with heq | ⟨a, w, ld, heq⟩
  · rw [heq]; exact Or.inl rfl
  · rw [heq]
    cases k with
    | bloodDonor =>
      rcases findById_append_cases (fun r : BloodDonor => r.id) recId db.bloodDonors
          (newBloodDonor db i a w ld) with hc | ⟨hn, hc⟩
      · left
        simp only [statusOf, findRec]
        rw [hc]
      · right
        refine ⟨by simp only [statusOf, findRec]; rw [hn]; rfl, ?_⟩
        simp only [statusOf, findRec]
        rw [hc]
        rfl
    | bloodReceiver => exact Or.inl rfl
    | organDonor => exact Or.inl rfl
    | organReceiver => exact Or.inl rfl
    | moneyDonor => exact Or.inl rfl
    | moneyReceiver => exact Or.inl rfl

theorem postBloodReceiver_statusOf (db : DB) (i : BloodReceiverInput) (k : Kind)
    (recId : Nat) :
    statusOf ((postBloodReceiver db i).2) k recId = statusOf db k recId
    ∨ (statusOf db k recId = none
       ∧ statusOf ((postBloodReceiver db i).2) k recId = some .pending) := by
  cases k with
  | bloodReceiver =>
    rcases findById_append_cases (fun r : BloodReceiver => r.id) recId db.bloodReceivers
        (newBloodReceiver db i) with hc | ⟨hn, hc⟩
    · left
      simp only [statusOf, findRec]
      rw [show ((postBloodReceiver db i).2).bloodReceivers
          = db.bloodReceivers ++ [newBloodReceiver db i] from rfl, hc]
    · right
      refine ⟨by simp only [statusOf, findRec]; rw [hn]; rfl, ?_⟩
      simp only [statusOf, findRec]
      rw [show ((postBloodReceiver db i).2).bloodReceivers
          = db.bloodReceivers ++ [newBloodReceiver db i] from rfl, hc]
      rfl
  | bloodDonor => exact Or.inl rfl
  | organDonor => exact Or.inl rfl
  | organReceiver => exact Or.inl rfl
  | moneyDonor => exact Or.inl rfl
  | moneyReceiver => exact Or.inl rfl

theorem postOrganDonor_statusOf (db : DB) (i : OrganDonorInput) (k : Kind) (recId : Nat) :
    statusOf ((postOrganDonor db i).2) k recId = statusOf db k recId
    ∨ (statusOf db k recId = none
       ∧ statusOf ((postOrganDonor db i).2) k recId = some .pending) := by
  rcases postOrganDonor_cases db i with ⟨_, heq⟩ | ⟨w, ld, heq⟩
  · rw [heq]; exact Or.inl rfl
  · rw [heq]
    obtain ⟨p1, p2, p4, p5, p6⟩ := saveOrganDonor_proj db i w ld
    cases k with
    | organDonor =>
      rcases findById_append_cases (fun r : OrganDonor => r.id) recId db.organDonors
          (newOrganDonor db i w ld) with hc | ⟨hn, hc⟩
      · left
        simp only [statusOf, findRec]
        rw [saveOrganDonor_organDonors, hc]
      · right
        refine ⟨by simp only [statusOf, findRec]; rw [hn]; rfl, ?_⟩
        simp only [statusOf, findRec]
        rw [saveOrganDonor_organDonors, hc]
        rfl
    | bloodDonor => left; simp only [statusOf, findRec]; rw [p1]
    | bloodReceiver => left; simp only [statusOf, findRec]; rw [p2]
    | organReceiver => left; simp only [statusOf, findRec]; rw [p4]
    | moneyDonor => left; simp only [statusOf, findRec]; rw [p5]
    | moneyReceiver => left; simp only [statusOf, findRec]; rw [p6]

theorem postOrganReceiver_statusOf (db : DB) (i : OrganReceiverInput) (k : Kind)
    (recId : Nat) :
    statusOf ((postOrganReceiver db i).2) k recId = statusOf db k recId
    ∨ (statusOf db k recId = none
       ∧ statusOf ((postOrganReceiver db i).2) k recId = some .pending) := by
  cases k with
  | organReceiver =>
    rcases findById_append_cases (fun r : OrganReceiver => r.id) recId db.organReceivers
        (newOrganReceiver db i) with hc | ⟨hn, hc⟩
    · left
      simp only [statusOf, findRec]
      rw [show ((postOrganReceiver db i).2).organReceivers
          = db.organReceivers ++ [newOrganReceiver db i] from rfl, hc]
    · right
      refine ⟨by simp only [statusOf, findRec]; rw [hn]; rfl, ?_⟩
      simp only [statusOf, findRec]
      rw [show ((postOrganReceiver db i).2).organReceivers
          = db.organReceivers ++ [newOrganReceiver db i] from rfl, hc]
      rfl
  | bloodDonor => exact Or.inl rfl
  | bloodReceiver => exact Or.inl rfl
  | organDonor => exact Or.inl rfl
  | moneyDonor => exact Or.inl rfl
  | moneyReceiver => exact Or.inl rfl

theorem postMoneyDonor_statusOf (db : DB) (i : MoneyDonorInput) (k : Kind) (recId : Nat) :
    statusOf ((postMoneyDonor db i).2) k recId = statusOf db k recId
    ∨ (statusOf db k recId = none
       ∧ statusOf ((postMoneyDonor db i).2) k recId = some .pending) := by
  obtain ⟨p1, p2, p3, p4, p6⟩ := postMoneyDonor_proj db i
  cases k with
  | moneyDonor =>
    rcases findById_append_cases (fun r : MoneyDonor => r.id) recId db.moneyDonors
        (newMoneyDonor db i) with hc | ⟨hn, hc⟩
    · left
      simp only [statusOf, findRec]
      rw [postMoneyDonor_moneyDonors, hc]
    · right
      refine ⟨by simp only [statusOf, findRec]; rw [hn]; rfl, ?_⟩
      simp only [statusOf, findRec]
      rw [postMoneyDonor_moneyDonors, hc]
      rfl
  | bloodDonor => left; simp only [statusOf, findRec]; rw [p1]
  | bloodReceiver => left; simp only [statusOf, findRec]; rw [p2]
  | organDonor => left; simp only [statusOf, findRec]; rw [p3]
  | organReceiver => left; simp only [statusOf, findRec]; rw [p4]
  | moneyReceiver => left; simp only [statusOf, findRec]; rw [p6]

theorem postMoneyReceiver_statusOf (db : DB) (i : MoneyReceiverInput) (k : Kind)
    (recId : Nat) :
    statusOf ((postMoneyReceiver db i).2) k recId = statusOf db k recId
    ∨ (statusOf db k recId = none
       ∧ statusOf ((postMoneyReceiver db i).2) k recId = some .pending) := by
  cases k with
  | moneyReceiver =>
    rcases findById_append_cases (fun r : MoneyReceiver => r.id) recId db.moneyReceivers
        (newMoneyReceiver db i) with hc | ⟨hn, hc⟩
    · left
      simp only [statusOf, findRec]
      rw [show ((postMoneyReceiver db i).2).moneyReceivers
          = db.moneyReceivers ++ [newMoneyReceiver db i] from rfl, hc]
    · right
      refine ⟨by simp only [statusOf, findRec]; rw [hn]; rfl, ?_⟩
      simp only [statusOf, findRec]
      rw [show ((postMoneyReceiver db i).2).moneyReceivers
          = db.moneyReceivers ++ [newMoneyReceiver db i] from rfl, hc]
      rfl
  | bloodDonor => exact Or.inl rfl
  | bloodReceiver => exact Or.inl rfl
  | organDonor => exact Or.inl rfl
  | organReceiver => exact Or.inl rfl
  | moneyDonor => exact Or.inl rfl


theorem adminVerify_statusOf (db : DB) (t : String) (recId2 : Nat) (status : String)
    (notes : Option String) (k : Kind) (recId : Nat) :
    statusOf ((adminVerify db t recId2 status notes).2) k recId = statusOf db k recId
    ∨ (parseKind t = some k ∧ recId2 = recId
       ∧ (status = "approved" ∨ status = "rejected")
       ∧ (statusOf db k recId).isSome = true
       ∧ statusOf ((adminVerify db t recId2 status notes).2) k recId =
           some (if status == "approved" then VStatus.approved else VStatus.rejected)) := by
  cases hk : parseKind t with
  | none => left; simp [adminVerify, hk]
  | some k2 =>
    by_cases hs : (status == "approved" || status == "rejected") = true
    case neg => left; simp [adminVerify, hk, hs]
    case pos =>
      have hst : status = "approved" ∨ status = "rejected" := by
        have hs2 := hs
        simp only [Bool.or_eq_true, beq_iff_eq] at hs2
        exact hs2
      cases k2 with
      | bloodDonor =>
        have hfst := findByIdAndUpdate_fst (fun d : BloodDonor => d.id) recId2
          (updateDataBD status db.now notes) db.bloodDonors
        cases hr : findById (fun d : BloodDonor => d.id) recId2 db.bloodDonors with
        | none =>
          rw [hr] at hfst
          left
          have h2 : (adminVerify db t recId2 status notes).2 = db := by
            simp [adminVerify, hk, hs, hfst]
          rw [h2]
        | some x =>
          rw [hr] at hfst
          have h2 : (adminVerify db t recId2 status notes).2 =
              { db with bloodDonors := (findByIdAndUpdate (fun d : BloodDonor => d.id) recId2
                  (updateDataBD status db.now notes) db.bloodDonors).2 } := by
            simp [adminVerify, hk, hs, hfst]
          rw [h2]
          cases k with
          | bloodDonor =>
            by_cases hid : recId2 = recId
            · subst hid
              have hsnd := findById_findByIdAndUpdate (fun d : BloodDonor => d.id) recId2
                (updateDataBD status db.now notes) (fun y => rfl) db.bloodDonors x hr
              right
              refine ⟨rfl, rfl, hst, ?_, ?_⟩
              · simp [statusOf, findRec, hr]
              · simp [statusOf, findRec, hsnd, updateDataBD, AnyRecord.env]
            · have hne := findById_findByIdAndUpdate_ne (fun d : BloodDonor => d.id) recId2 recId
                (updateDataBD status db.now notes) (fun y => rfl)
                (fun hh => hid hh.symm) db.bloodDonors
              left
              simp only [statusOf, findRec]
              rw [hne]
          | bloodReceiver => exact Or.inl rfl
          | organDonor => exact Or.inl rfl
          | organReceiver => exact Or.inl rfl
          | moneyDonor => exact Or.inl rfl
          | moneyReceiver => exact Or.inl rfl
      | bloodReceiver =>
        have hfst := findByIdAndUpdate_fst (fun d : BloodReceiver => d.id) recId2
          (updateDataBR status db.now notes) db.bloodReceivers
        cases hr : findById (fun d : BloodReceiver => d.id) recId2 db.bloodReceivers with
        | none =>
          rw [hr] at hfst
          left
          have h2 : (adminVerify db t recId2 status notes).2 = db := by
            simp [adminVerify, hk, hs, hfst]
          rw [h2]
        | some x =>
          rw [hr] at hfst
          have h2 : (adminVerify db t recId2 status notes).2 =
              { db with bloodReceivers := (findByIdAndUpdate (fun d : BloodReceiver => d.id) recId2
                  (updateDataBR status db.now notes) db.bloodReceivers).2 } := by
            simp [adminVerify, hk, hs, hfst]
          rw [h2]
          cases k with
          | bloodReceiver =>
            by_cases hid : recId2 = recId
            · subst hid
              have hsnd := findById_findByIdAndUpdate (fun d : BloodReceiver => d.id) recId2
                (updateDataBR status db.now notes) (fun y => rfl) db.bloodReceivers x hr
              right
              refine ⟨rfl, rfl, hst, ?_, ?_⟩
              · simp [statusOf, findRec, hr]
              · simp [statusOf, findRec, hsnd, updateDataBR, AnyRecord.env]
            · have hne := findById_findByIdAndUpdate_ne (fun d : BloodReceiver => d.id) recId2 recId
                (updateDataBR status db.now notes) (fun y => rfl)
                (fun hh => hid hh.symm) db.bloodReceivers
              left
              simp only [statusOf, findRec]
              rw [hne]
          | bloodDonor => exact Or.inl rfl
          | organDonor => exact Or.inl rfl
          | organReceiver => exact Or.inl rfl
          | moneyDonor => exact Or.inl rfl
          | moneyReceiver => exact Or.inl rfl
      | organDonor =>
        have hfst := findByIdAndUpdate_fst (fun d : OrganDonor => d.id) recId2
          (updateDataOD status db.now notes) db.organDonors
        cases hr : findById (fun d : OrganDonor => d.id) recId2 db.organDonors with
        | none =>
          rw [hr] at hfst
          left
          have h2 : (adminVerify db t recId2 status notes).2 = db := by
            simp [adminVerify, hk, hs, hfst]
          rw [h2]
        | some x =>
          rw [hr] at hfst
          have h2 : (adminVerify db t recId2 status notes).2 =
              { db with organDonors := (findByIdAndUpdate (fun d : OrganDonor => d.id) recId2
                  (updateDataOD status db.now notes) db.organDonors).2 } := by
            simp [adminVerify, hk, hs, hfst]
          rw [h2]
          cases k with
          | organDonor =>
            by_cases hid : recId2 = recId
            · subst hid
              have hsnd := findById_findByIdAndUpdate (fun d : OrganDonor => d.id) recId2
                (updateDataOD status db.now notes) (fun y => rfl) db.organDonors x hr
              right
              refine ⟨rfl, rfl, hst, ?_, ?_⟩
              · simp [statusOf, findRec, hr]
              · simp [statusOf, findRec, hsnd, updateDataOD, AnyRecord.env]
            · have hne := findById_findByIdAndUpdate_ne (fun d : OrganDonor => d.id) recId2 recId
                (updateDataOD status db.now notes) (fun y => rfl)
                (fun hh => hid hh.symm) db.organDonors
              left
              simp only [statusOf, findRec]
              rw [hne]
          | bloodDonor => exact Or.inl rfl
          | bloodReceiver => exact Or.inl rfl
          | organReceiver => exact Or.inl rfl
          | moneyDonor => exact Or.inl rfl
          | moneyReceiver => exact Or.inl rfl
      | organReceiver =>
        have hfst := findByIdAndUpdate_fst (fun d : OrganReceiver => d.id) recId2
          (updateDataOR status db.now notes) db.organReceivers
        cases hr : findById (fun d : OrganReceiver => d.id) recId2 db.organReceivers with
        | none =>
          rw [hr] at hfst
          left
          have h2 : (adminVerify db t recId2 status notes).2 = db := by
            simp [adminVerify, hk, hs, hfst]
          rw [h2]
        | some x =>
          rw [hr] at hfst
          have h2 : (adminVerify db t recId2 status notes).2 =
              { db with organReceivers := (findByIdAndUpdate (fun d : OrganReceiver => d.id) recId2
                  (updateDataOR status db.now notes) db.organReceivers).2 } := by
            simp [adminVerify, hk, hs, hfst]
          rw [h2]
          cases k with
          | organReceiver =>
            by_cases hid : recId2 = recId
            · subst hid
              have hsnd := findById_findByIdAndUpdate (fun d : OrganReceiver => d.id) recId2
                (updateDataOR status db.now notes) (fun y => rfl) db.organReceivers x hr
              right
              refine ⟨rfl, rfl, hst, ?_, ?_⟩
              · simp [statusOf, findRec, hr]
              · simp [statusOf, findRec, hsnd, updateDataOR, AnyRecord.env]
            · have hne := findById_findByIdAndUpdate_ne (fun d : OrganReceiver => d.id) recId2 recId
                (updateDataOR status db.now notes) (fun y => rfl)
                (fun hh => hid hh.symm) db.organReceivers
              left
              simp only [statusOf, findRec]
              rw [hne]
          | bloodDonor => exact Or.inl rfl
          | bloodReceiver => exact Or.inl rfl
          | organDonor => exact Or.inl rfl
          | moneyDonor => exact Or.inl rfl
          | moneyReceiver => exact Or.inl rfl
      | moneyDonor =>
        have hfst := findByIdAndUpdate_fst (fun d : MoneyDonor => d.id) recId2
          (updateDataMD status db.now notes) db.moneyDonors
        cases hr : findById (fun d : MoneyDonor => d.id) recId2 db.moneyDonors with
        | none =>
          rw [hr] at hfst
          left
          have h2 : (adminVerify db t recId2 status notes).2 = db := by
            simp [adminVerify, hk, hs, hfst]
          rw [h2]
        | some x =>
          rw [hr] at hfst
          have h2 : (adminVerify db t recId2 status notes).2 =
              { db with moneyDonors := (findByIdAndUpdate (fun d : MoneyDonor => d.id) recId2
                  (updateDataMD status db.now notes) db.moneyDonors).2 } := by
            simp [adminVerify, hk, hs, hfst]
          rw [h2]
          cases k with
          | moneyDonor =>
            by_cases hid : recId2 = recId
            · subst hid
              have hsnd := findById_findByIdAndUpdate (fun d : MoneyDonor => d.id) recId2
                (updateDataMD status db.now notes) (fun y => rfl) db.moneyDonors x hr
              right
              refine ⟨rfl, rfl, hst, ?_, ?_⟩
              · simp [statusOf, findRec, hr]
              · simp [statusOf, findRec, hsnd, updateDataMD, AnyRecord.env]
            · have hne := findById_findByIdAndUpdate_ne (fun d : MoneyDonor => d.id) recId2 recId
                (updateDataMD status db.now notes) (fun y => rfl)
                (fun hh => hid hh.symm) db.moneyDonors
              left
              simp only [statusOf, findRec]
              rw [hne]
          | bloodDonor => exact Or.inl rfl
          | bloodReceiver => exact Or.inl rfl
          | organDonor => exact Or.inl rfl
          | organReceiver => exact Or.inl rfl
          | moneyReceiver => exact Or.inl rfl
      | moneyReceiver =>
        have hfst := findByIdAndUpdate_fst (fun d : MoneyReceiver => d.id) recId2
          (updateDataMR status db.now notes) db.moneyReceivers
        cases hr : findById (fun d : MoneyReceiver => d.id) recId2 db.moneyReceivers with
        | none =>
          rw [hr] at hfst
          left
          have h2 : (adminVerify db t recId2 status notes).2 = db := by
            simp [adminVerify, hk, hs, hfst]
          rw [h2]
        | some x =>
          rw [hr] at hfst
          have h2 : (adminVerify db t recId2 status notes).2 =
              { db with moneyReceivers := (findByIdAndUpdate (fun d : MoneyReceiver => d.id) recId2
                  (updateDataMR status db.now notes) db.moneyReceivers).2 } := by
            simp [adminVerify, hk, hs, hfst]
          rw [h2]
          cases k with
          | moneyReceiver =>
            by_cases hid : recId2 = recId
            · subst hid
              have hsnd := findById_findByIdAndUpdate (fun d : MoneyReceiver => d.id) recId2
                (updateDataMR status db.now notes) (fun y => rfl) db.moneyReceivers x hr
              right
              refine ⟨rfl, rfl, hst, ?_, ?_⟩
              · simp [statusOf, findRec, hr]
              · simp [statusOf, findRec, hsnd, updateDataMR, AnyRecord.env]
            · have hne := findById_findByIdAndUpdate_ne (fun d : MoneyReceiver => d.id) recId2 recId
                (updateDataMR status db.now notes) (fun y => rfl)
                (fun hh => hid hh.symm) db.moneyReceivers
              left
              simp only [statusOf, findRec]
              rw [hne]
          | bloodDonor => exact Or.inl rfl
          | bloodReceiver => exact Or.inl rfl
          | organDonor => exact Or.inl rfl
          | organReceiver => exact Or.inl rfl
          | moneyDonor => exact Or.inl rfl


/-- C4 (amended): a record's verificationStatus starts at pending (any
record that newly appears has status pending), and any later change
happens only through an admin-verify request aimed at that record with
status approved or rejected — in particular never back to pending.
Unlike the original claim, the status may change more than once: every
admin-verify call overwrites it. -/
theorem status_transitions_amended :
    (∀ (db : DB) (op : Op) (k : Kind) (recId : Nat) (s2 : VStatus),
        statusOf db k recId = none →
        statusOf (step db op) k recId = some s2 →
        s2 = .pending)
    ∧ (∀ (db : DB) (op : Op) (k : Kind) (recId : Nat) (s s2 : VStatus),
        statusOf db k recId = some s →
        statusOf (step db op) k recId = some s2 →
        s2 ≠ s →
        s2 ≠ .pending
        ∧ ∃ t status notes, op = Op.adminVerify t recId status notes
            ∧ parseKind t = some k
            ∧ ((status = "approved" ∧ s2 = .approved)
               ∨ (status = "rejected" ∧ s2 = .rejected))) := by
  constructor
  · intro db op k recId s2 h0 h1
    cases op with
    | postBloodDonor i =>
      simp only [step] at h1
      rcases postBloodDonor_statusOf db i k recId with hc | ⟨hn, hc⟩
      · rw [hc, h0] at h1; cases h1
      · rw [hc] at h1; exact (Option.some.inj h1).symm
    | postBloodReceiver i =>
      simp only [step] at h1
      rcases postBloodReceiver_statusOf db i k recId with hc | ⟨hn, hc⟩
      · rw [hc, h0] at h1; cases h1
      · rw [hc] at h1; exact (Option.some.inj h1).symm
    | postOrganDonor i =>
      simp only [step] at h1
      rcases postOrganDonor_statusOf db i k recId with hc | ⟨hn, hc⟩
      · rw [hc, h0] at h1; cases h1
      · rw [hc] at h1; exact (Option.some.inj h1).symm
    | postOrganReceiver i =>
      simp only [step] at h1
      rcases postOrganReceiver_statusOf db i k recId with hc | ⟨hn, hc⟩
      · rw [hc, h0] at h1; cases h1
      · rw [hc] at h1; exact (Option.some.inj h1).symm
    | postMoneyDonor i =>
      simp only [step] at h1
      rcases postMoneyDonor_statusOf db i k recId with hc | ⟨hn, hc⟩
      · rw [hc, h0] at h1; cases h1
      · rw [hc] at h1; exact (Option.some.inj h1).symm
    | postMoneyReceiver i =>
      simp only [step] at h1
      rcases postMoneyReceiver_statusOf db i k recId with hc | ⟨hn, hc⟩
      · rw [hc, h0] at h1; cases h1
      · rw [hc] at h1; exact (Option.some.inj h1).symm
    | adminVerify t recId2 status notes =>
      simp only [step] at h1
      rcases adminVerify_statusOf db t recId2 status notes k recId with
        hc | ⟨_, _, _, hsome, _⟩
      · rw [hc, h0] at h1; cases h1
      · rw [h0] at hsome; cases hsome
    | tick d =>
      simp only [step] at h1
      rw [statusOf_tick, h0] at h1
      cases h1
  · intro db op k recId s s2 h0 h1 hne
    cases op with
    | postBloodDonor i =>
      simp only [step] at h1
      rcases postBloodDonor_statusOf db i k recId with hc | ⟨hn, hc⟩
      · rw [hc, h0] at h1; exact absurd (Option.some.inj h1).symm hne
      · rw [hn] at h0; cases h0
    | postBloodReceiver i =>
      simp only [step] at h1
      rcases postBloodReceiver_statusOf db i k recId with hc | ⟨hn, hc⟩
      · rw [hc, h0] at h1; exact absurd (Option.some.inj h1).symm hne
      · rw [hn] at h0; cases h0
    | postOrganDonor i =>
      simp only [step] at h1
      rcases postOrganDonor_statusOf db i k recId with hc | ⟨hn, hc⟩
      · rw [hc, h0] at h1; exact absurd (Option.some.inj h1).symm hne
      · rw [hn] at h0; cases h0
    | postOrganReceiver i =>
      simp only [step] at h1
      rcases postOrganReceiver_statusOf db i k recId with hc | ⟨hn, hc⟩
      · rw [hc, h0] at h1; exact absurd (Option.some.inj h1).symm hne
      · rw [hn] at h0; cases h0
    | postMoneyDonor i =>
      simp only [step] at h1
      rcases postMoneyDonor_statusOf db i k recId with hc | ⟨hn, hc⟩
      · rw [hc, h0] at h1; exact absurd (Option.some.inj h1).symm hne
      · rw [hn] at h0; cases h0
    | postMoneyReceiver i =>
      simp only [step] at h1
      rcases postMoneyReceiver_statusOf db i k recId with hc | ⟨hn, hc⟩
      · rw [hc, h0] at h1; exact absurd (Option.some.inj h1).symm hne
      · rw [hn] at h0; cases h0
    | adminVerify t recId2 status notes =>
      simp only [step] at h1
      rcases adminVerify_statusOf db t recId2 status notes k recId with
        hc | ⟨hk, hrid, hst, _, hafter⟩
      · rw [hc, h0] at h1; exact absurd (Option.some.inj h1).symm hne
      · subst hrid
        rw [hafter] at h1
        have hs2 : s2 = if status == "approved" then VStatus.approved
            else VStatus.rejected := (Option.some.inj h1).symm
        constructor
        · rcases hst with h | h
          · subst h
            have hb : (("approved" : String) == "approved") = true := by decide
            rw [hb] at hs2
            simp only [if_true] at hs2
            rw [hs2]
            decide
          · subst h
            have hb : (("rejected" : String) == "approved") = false := by decide
            rw [hb] at hs2
            simp only [Bool.false_eq_true, if_false] at hs2
            rw [hs2]
            decide
        · refine ⟨t, status, notes, rfl, hk, ?_⟩
          rcases hst with h | h
          · subst h
            have hb : (("approved" : String) == "approved") = true := by decide
            rw [hb] at hs2
            simp only [if_true] at hs2
            exact Or.inl ⟨rfl, hs2⟩
          · subst h
            have hb : (("rejected" : String) == "approved") = false := by decide
            rw [hb] at hs2
            simp only [Bool.false_eq_true, if_false] at hs2
            exact Or.inr ⟨rfl, hs2⟩
    | tick d =>
      simp only [step] at h1
      rw [statusOf_tick, h0] at h1
      exact absurd (Option.some.inj h1).symm hne

/-- Counterexample to C4 as stated: a money-donor record transitions
twice after creation, pending to approved to rejected, because the
verify endpoint has no at-most-once guard. -/
theorem status_transitions_counterexample :
    statusOf (run initDB [Op.postMoneyDonor (sampleMoneyDonorInput none)])
        Kind.moneyDonor 0 = some .pending
    ∧ statusOf (run initDB [Op.postMoneyDonor (sampleMoneyDonorInput none),
        Op.adminVerify "money-donor" 0 "approved" none]) Kind.moneyDonor 0 =
        some .approved
    ∧ statusOf (run initDB [Op.postMoneyDonor (sampleMoneyDonorInput none),
        Op.adminVerify "money-donor" 0 "approved" none,
        Op.adminVerify "money-donor" 0 "rejected" none]) Kind.moneyDonor 0 =
        some .rejected := ⟨by decide, by decide, by decide⟩

/-- Witness for the amended C4: the second transition of the
counterexample trace is classified by the theorem itself. -/
theorem status_transitions_amended_witness :
    VStatus.rejected ≠ VStatus.pending
    ∧ ∃ t status notes,
        Op.adminVerify "money-donor" 0 "rejected" none =
          Op.adminVerify t 0 status notes
        ∧ parseKind t = some Kind.moneyDonor
        ∧ ((status = "approved" ∧ VStatus.rejected = .approved)
           ∨ (status = "rejected" ∧ VStatus.rejected = .rejected)) :=
  status_transitions_amended.2
    (run initDB [Op.postMoneyDonor (sampleMoneyDonorInput none),
      Op.adminVerify "money-donor" 0 "approved" none])
    (Op.adminVerify "money-donor" 0 "rejected" none)
    Kind.moneyDonor 0 VStatus.approved VStatus.rejected
    (by decide) (by decide) (by decide)

/-- C8: `listBloodDonors` returns exactly the blood donor records with
`verificationStatus` approved, while `listOrganDonors` returns every
organ donor record regardless of verification state. -/
theorem listing_asymmetry :
    (∀ (db : DB) (d : BloodDonor),
        d ∈ listBloodDonors db ↔
          d ∈ db.bloodDonors ∧ d.verificationStatus = VStatus.approved)
    ∧ (∀ db : DB, listOrganDonors db = db.organDonors) := by
  constructor
  · intro db d
    simp [listBloodDonors, List.mem_filter]
  · intro db
    rfl

/-- C9: login fails with the same Unauthorized message when the phone
is unknown and when the password comparison fails, and on success it
returns the user without the password field (the `UserResponse`
projection carries no password). -/
theorem login_cases :
    (∀ (compare : String → String → Bool) (db : DB) (phone password : String),
        db.users.find? (fun u => u.phone == phone) = none →
        login compare db phone password =
          .unauthorized "Invalid phone number or password")
    ∧ (∀ (compare : String → String → Bool) (db : DB) (phone password : String)
        (user : User),
        db.users.find? (fun u => u.phone == phone) = some user →
        compare password user.password = false →
        login compare db phone password =
          .unauthorized "Invalid phone number or password")
    ∧ (∀ (compare : String → String → Bool) (db : DB) (phone password : String)
        (user : User),
        db.users.find? (fun u => u.phone == phone) = some user →
        compare password user.password = true →
        login compare db phone password =
          .ok "Login successful"
            { id := user.id, name := user.name, phone := user.phone
              profilePhoto := user.profilePhoto, createdAt := user.createdAt
              donations := user.donations }) := by
  refine ⟨?_, ?_, ?_⟩
  · intro compare db phone password h
    simp [login, h]
  · intro compare db phone password user h hcmp
    simp [login, h, hcmp]
  · intro compare db phone password user h hcmp
    simp [login, h, hcmp]

/-- Witness for C9: with one registered user and equality as the hash
comparison, a wrong password yields the Unauthorized response. -/
theorem login_cases_witness :
    login (fun a b => a == b)
        { initDB with users := [sampleUser 7] } "9000000000" "wrongpw" =
      .unauthorized "Invalid phone number or password" := by
  apply login_cases.2.1 (fun a b => a == b) _ _ _ (sampleUser 7)
  · decide
  · decide

/-- C10: a blood donor submission never modifies any user record (nor
any other collection): even with a `userId` in the body, only the
blood-donor collection can grow. -/
theorem postBloodDonor_frame :
    ∀ (db : DB) (i : BloodDonorInput),
      ((postBloodDonor db i).2).users = db.users
      ∧ ((postBloodDonor db i).2).bloodReceivers = db.bloodReceivers
      ∧ ((postBloodDonor db i).2).organDonors = db.organDonors
      ∧ ((postBloodDonor db i).2).organReceivers = db.organReceivers
      ∧ ((postBloodDonor db i).2).moneyDonors = db.moneyDonors
      ∧ ((postBloodDonor db i).2).moneyReceivers = db.moneyReceivers
      ∧ (((postBloodDonor db i).2).bloodDonors = db.bloodDonors
         ∨ ∃ d, ((postBloodDonor db i).2).bloodDonors = db.bloodDonors ++ [d]) := by
  intro db i
  unfold postBloodDonor saveBloodDonor
  repeat' split
  all_goals refine ⟨rfl, rfl, rfl, rfl, rfl, rfl, ?_⟩
  all_goals first
    | exact Or.inl rfl
    | exact Or.inr ⟨_, rfl⟩

end Blood
